import Mathlib

/-! Contact manager: the contact store and the random-contact fetcher.

A shallow embedding of `contact.h`, `databasemanager.cpp` and `networkmanager.cpp`.

* A `QString` is a Lean `String`; the null and the empty `QString` are one value, as
  they are for `QString::isEmpty` and `operator==`.
* The SQLite database behind `m_database` is an explicit value: the `contacts` table
  (absent until `createTable` ran) and the `AUTOINCREMENT` counter. Each SQL statement
  of the source is a function on that value. A statement fails only when the table
  is absent; faults of the environment (I/O errors, resource limits of the engine)
  are outside the model.
* The C++ `int` and the engine's 64-bit row id are both `Int`. `addContact` narrows
  `lastInsertId()` to an `int` with `toInt`, as the source does. An id the caller
  passes is an `int` already, and a row read back by that id carries it unchanged.
* A member function becomes a function from the object before the call to the
  returned value and the object after it. Signals are appended to the `emitted`
  trace of the object. `qDebug`/`qWarning` output is not part of the state.
* `QJsonDocument::fromJson` is a parameter of the fetcher's functions, which work on
  the parsed document.
-/

namespace ContactManager

/-! ## contact.h -/

/-- The `Contact` record of `contact.h`. -/
structure Contact where
  id : Int
  firstName : String
  lastName : String
  email : String
  phone : String
  city : String
  country : String
deriving DecidableEq, Repr

namespace Contact

/-- The default constructor `Contact() : id(-1) {}`: every string is empty. -/
def new : Contact := ⟨-1, "", "", "", "", "", ""⟩

/-- `Contact::isValid`: both names are non-empty. -/
def isValid (c : Contact) : Bool := !c.firstName.isEmpty && !c.lastName.isEmpty

/-- `Contact::fullName`. -/
def fullName (c : Contact) : String := c.firstName ++ " " ++ c.lastName

end Contact

/-! ## The storage engine -/

/-- One row of the table `contacts`. The column `created_at` is never read by the
program and is left out. -/
structure Row where
  id : Int
  first_name : String
  last_name : String
  email : String
  phone : String
  city : String
  country : String
deriving DecidableEq, Repr

/-- The database file `contacts.db` as seen through `m_database`. -/
structure Database where
  /-- `QSqlDatabase::isOpen`. -/
  isOpen : Bool
  /-- The driver's message when the file cannot be opened; `none` when it can. -/
  openError : Option String
  /-- The rows of `contacts` in insertion order; `none` while the table does not exist. -/
  contacts : Option (List Row)
  /-- The `sqlite_sequence` entry of `contacts`: the largest id handed out so far. -/
  seq : Int
deriving DecidableEq, Repr

/-- The message of the engine for a statement that names a table that does not exist.
Its wording is the driver's; the program only appends it to its own text. -/
def noSuchTable : String := "no such table: contacts"

/-- The order of `ORDER BY first_name, last_name` under the engine's default (binary)
collation: by `first_name`, ties broken by `last_name`, strings compared
lexicographically by code point. -/
def Row.nameLe (a b : Row) : Prop :=
  a.first_name.data < b.first_name.data ∨
    (a.first_name.data = b.first_name.data ∧ a.last_name.data ≤ b.last_name.data)

instance Row.decidableNameLe : DecidableRel Row.nameLe :=
  fun a b => by unfold Row.nameLe; exact inferInstance

/-- The helper of `likeMatch` for `%`: `rest` matches some suffix of the text. -/
def likeAny (rest : List Char → Bool) : List Char → Bool
  | [] => rest []
  | c :: s => rest (c :: s) || likeAny rest s

/-- The engine's `text LIKE pattern` (no `ESCAPE` clause): `%` matches any run of
characters, `_` matches any one character, every other character matches itself
up to the case of ASCII letters. -/
def likeMatch : List Char → List Char → Bool
  | [], s => s.isEmpty
  | p :: ps, s =>
    if p = '%' then likeAny (likeMatch ps) s
    else
      match s with
      | [] => false
      | c :: cs => (p = '_' || p.toLower = c.toLower) && likeMatch ps cs

/-- The operator `X LIKE Y` on two text values. -/
def like (x y : String) : Bool := likeMatch y.data x.data

namespace Database

/-- `QSqlDatabase::open` after `setDatabaseName("contacts.db")`. -/
def «open» (db : Database) : Bool × Database :=
  match db.openError with
  | some _ => (false, { db with isOpen := false })
  | none => (true, { db with isOpen := true })

/-- `QSqlDatabase::close`. -/
def close (db : Database) : Database := { db with isOpen := false }

/-- The largest id among `rows` and `seq`. -/
def maxRowid (rows : List Row) (seq : Int) : Int :=
  rows.foldl (fun m r => max m r.id) seq

/-- `CREATE TABLE IF NOT EXISTS contacts (...)`. -/
def execCreateTable (db : Database) : Except String Database :=
  match db.contacts with
  | none => .ok { db with contacts := some [] }
  | some _ => .ok db

/-- `INSERT INTO contacts (first_name, last_name, email, phone, city, country) VALUES
(...)`: the id is one more than every id the table has seen (`AUTOINCREMENT`); the
result carries `lastInsertId`. -/
def execInsert (db : Database) (firstName lastName email phone city country : String) :
    Except String (Database × Int) :=
  match db.contacts with
  | none => .error noSuchTable
  | some rows =>
    let newId := maxRowid rows db.seq + 1
    .ok ({ db with
            contacts := some (rows ++ [⟨newId, firstName, lastName, email, phone, city, country⟩]),
            seq := newId }, newId)

/-- `UPDATE contacts SET first_name=..., ..., country=... WHERE id=:id`. -/
def execUpdate (db : Database) (id : Int)
    (firstName lastName email phone city country : String) : Except String Database :=
  match db.contacts with
  | none => .error noSuchTable
  | some rows =>
    .ok { db with
          contacts := some (rows.map fun r =>
            if r.id = id then ⟨r.id, firstName, lastName, email, phone, city, country⟩ else r) }

/-- `DELETE FROM contacts WHERE id=:id`. -/
def execDelete (db : Database) (id : Int) : Except String Database :=
  match db.contacts with
  | none => .error noSuchTable
  | some rows => .ok { db with contacts := some (rows.filter fun r => r.id ≠ id) }

/-- `SELECT * FROM contacts WHERE id=:id`: the result set. -/
def execSelectById (db : Database) (id : Int) : Except String (List Row) :=
  match db.contacts with
  | none => .error noSuchTable
  | some rows => .ok (rows.filter fun r => r.id = id)

/-- `SELECT * FROM contacts ORDER BY first_name, last_name`. -/
def execSelectAll (db : Database) : Except String (List Row) :=
  match db.contacts with
  | none => .error noSuchTable
  | some rows => .ok (rows.insertionSort Row.nameLe)

/-- `SELECT * FROM contacts WHERE first_name LIKE :term OR last_name LIKE :term OR
email LIKE :term OR phone LIKE :term OR city LIKE :term OR country LIKE :term
ORDER BY first_name, last_name`. -/
def execSelectLike (db : Database) (term : String) : Except String (List Row) :=
  match db.contacts with
  | none => .error noSuchTable
  | some rows =>
    .ok ((rows.filter fun r =>
          like r.first_name term || like r.last_name term ||
          like r.email term || like r.phone term ||
          like r.city term || like r.country term).insertionSort Row.nameLe)

/-- What the schema promises of a stored table: ids are positive, no larger than the
`AUTOINCREMENT` counter, and pairwise distinct (`INTEGER PRIMARY KEY AUTOINCREMENT`). -/
def Valid (db : Database) : Prop :=
  0 ≤ db.seq ∧
    ∀ rows, db.contacts = some rows →
      (∀ r ∈ rows, 0 < r.id ∧ r.id ≤ db.seq) ∧ (rows.map Row.id).Nodup

end Database

/-! ## databasemanager.cpp -/

/-- The signals of `DatabaseManager`. -/
inductive Signal where
  | databaseConnected
  | databaseDisconnected
  | contactAdded (id : Int)
  | contactUpdated (id : Int)
  | contactDeleted (id : Int)
  | errorOccurred (error : String)
deriving DecidableEq, Repr

/-- The object `DatabaseManager`: its two members and the signals emitted so far,
oldest first. -/
structure DatabaseManager where
  m_database : Database
  m_lastError : String
  emitted : List Signal
deriving DecidableEq, Repr

/-- The order by which results are returned, read on contacts: by `firstName`, ties
broken by `lastName`, in the engine's string order. -/
def Contact.nameLe (a b : Contact) : Prop :=
  a.firstName.data < b.firstName.data ∨
    (a.firstName.data = b.firstName.data ∧ a.lastName.data ≤ b.lastName.data)

instance Contact.decidableNameLe : DecidableRel Contact.nameLe :=
  fun a b => by unfold Contact.nameLe; exact inferInstance

/-- `QVariant::toInt` on a 64-bit integer: the value narrowed to a 32-bit C++ `int`,
wrapping around in two's complement. -/
def toInt (v : Int) : Int := (v + 2147483648) % 4294967296 - 2147483648

/-- The columns of a result row read into a `Contact` (the seven `query.value(...)`
assignments shared by `getContact`, `getAllContacts` and `searchContacts`). -/
def Row.toContact (r : Row) : Contact :=
  ⟨r.id, r.first_name, r.last_name, r.email, r.phone, r.city, r.country⟩

namespace DatabaseManager

/-- `emit signal`. -/
def emit (dm : DatabaseManager) (s : Signal) : DatabaseManager :=
  { dm with emitted := dm.emitted ++ [s] }

/-- `DatabaseManager::setLastError`. -/
def setLastError (dm : DatabaseManager) (error : String) : DatabaseManager :=
  { dm with m_lastError := error, emitted := dm.emitted ++ [Signal.errorOccurred error] }

/-- `DatabaseManager::lastError`. -/
def lastError (dm : DatabaseManager) : String := dm.m_lastError

/-- `DatabaseManager::isConnected`. -/
def isConnected (dm : DatabaseManager) : Bool := dm.m_database.isOpen

/-- `DatabaseManager::connectToDatabase`; the five arguments are ignored. -/
def connectToDatabase (dm : DatabaseManager) (_host _database _user _password : String)
    (_port : Int) : Bool × DatabaseManager :=
  let opened := dm.m_database.open
  if !opened.1 then
    (false, ({ dm with m_database := opened.2 }).setLastError
      ("Failed to connect: " ++ dm.m_database.openError.getD ""))
  else
    (true, ({ dm with m_database := opened.2 }).emit Signal.databaseConnected)

/-- `DatabaseManager::disconnectFromDatabase`. -/
def disconnectFromDatabase (dm : DatabaseManager) : DatabaseManager :=
  if dm.m_database.isOpen then
    ({ dm with m_database := dm.m_database.close }).emit Signal.databaseDisconnected
  else dm

/-- `DatabaseManager::createTable`. -/
def createTable (dm : DatabaseManager) : Bool × DatabaseManager :=
  if !dm.isConnected then (false, dm.setLastError "Database not connected")
  else
    match dm.m_database.execCreateTable with
    | .error e => (false, dm.setLastError ("Failed to create table: " ++ e))
    | .ok db => (true, { dm with m_database := db })

/-- `DatabaseManager::addContact`. -/
def addContact (dm : DatabaseManager) (contact : Contact) : Bool × DatabaseManager :=
  if !dm.isConnected then (false, dm.setLastError "Database not connected")
  else if !contact.isValid then (false, dm.setLastError "Invalid contact data")
  else
    match dm.m_database.execInsert contact.firstName contact.lastName contact.email
        contact.phone contact.city contact.country with
    | .error e => (false, dm.setLastError ("Failed to add contact: " ++ e))
    | .ok (db, lastInsertId) =>
      let newId := toInt lastInsertId
      (true, ({ dm with m_database := db }).emit (Signal.contactAdded newId))

/-- `DatabaseManager::updateContact`. -/
def updateContact (dm : DatabaseManager) (contact : Contact) : Bool × DatabaseManager :=
  if !dm.isConnected then (false, dm.setLastError "Database not connected")
  else if contact.id ≤ 0 || !contact.isValid then
    (false, dm.setLastError "Invalid contact data")
  else
    match dm.m_database.execUpdate contact.id contact.firstName contact.lastName
        contact.email contact.phone contact.city contact.country with
    | .error e => (false, dm.setLastError ("Failed to update contact: " ++ e))
    | .ok db =>
      (true, ({ dm with m_database := db }).emit (Signal.contactUpdated contact.id))

/-- `DatabaseManager::deleteContact`. -/
def deleteContact (dm : DatabaseManager) (id : Int) : Bool × DatabaseManager :=
  if !dm.isConnected then (false, dm.setLastError "Database not connected")
  else if id ≤ 0 then (false, dm.setLastError "Invalid contact ID")
  else
    match dm.m_database.execDelete id with
    | .error e => (false, dm.setLastError ("Failed to delete contact: " ++ e))
    | .ok db => (true, ({ dm with m_database := db }).emit (Signal.contactDeleted id))

/-- `DatabaseManager::getContact`: `query.next()` moves to the first row of the result
set, if there is one. -/
def getContact (dm : DatabaseManager) (id : Int) : Contact × DatabaseManager :=
  let contact := Contact.new
  if !dm.isConnected then (contact, dm.setLastError "Database not connected")
  else
    match dm.m_database.execSelectById id with
    | .ok (r :: _) => (r.toContact, dm)
    | _ => (contact, dm.setLastError "Contact not found")

/-- `DatabaseManager::getAllContacts`. -/
def getAllContacts (dm : DatabaseManager) : List Contact × DatabaseManager :=
  let contacts : List Contact := []
  if !dm.isConnected then (contacts, dm.setLastError "Database not connected")
  else
    match dm.m_database.execSelectAll with
    | .error e => (contacts, dm.setLastError ("Failed to fetch contacts: " ++ e))
    | .ok rows => (contacts ++ rows.map Row.toContact, dm)

/-- `DatabaseManager::searchContacts`. -/
def searchContacts (dm : DatabaseManager) (searchTerm : String) :
    List Contact × DatabaseManager :=
  let contacts : List Contact := []
  if !dm.isConnected then (contacts, dm.setLastError "Database not connected")
  else if searchTerm.isEmpty then dm.getAllContacts
  else
    let likePattern := "%" ++ searchTerm ++ "%"
    match dm.m_database.execSelectLike likePattern with
    | .error e => (contacts, dm.setLastError ("Failed to search contacts: " ++ e))
    | .ok rows => (contacts ++ rows.map Row.toContact, dm)

end DatabaseManager

/-! ## The JSON values of Qt -/

/-- A `QJsonValue`. `undefined` is what `QJsonObject::operator[]` returns for a key
that is absent. The payload of a number plays no part in the program. -/
inductive QJsonValue where
  | null
  | bool (b : Bool)
  | double (d : Int)
  | string (s : String)
  | array (items : List QJsonValue)
  | object (members : List (String × QJsonValue))
  | undefined

/-- A `QJsonObject`: its members, looked up by key. -/
abbrev QJsonObject := List (String × QJsonValue)

/-- A `QJsonArray`. -/
abbrev QJsonArray := List QJsonValue

/-- A `QJsonDocument`: null (the text did not parse), or an array, or an object. -/
inductive QJsonDocument where
  | null
  | ofArray (items : QJsonArray)
  | ofObject (members : QJsonObject)

namespace QJsonValue

/-- `QJsonValue::isArray`. -/
def isArray : QJsonValue → Bool
  | array _ => true
  | _ => false

/-- `QJsonValue::isObject`. -/
def isObject : QJsonValue → Bool
  | object _ => true
  | _ => false

/-- `QJsonValue::toArray`: the empty array when the value is not an array. -/
def toArray : QJsonValue → QJsonArray
  | array items => items
  | _ => []

/-- `QJsonValue::toObject`: the empty object when the value is not an object. -/
def toObject : QJsonValue → QJsonObject
  | object members => members
  | _ => []

/-- `QJsonValue::toString`: the empty string when the value is not a string. -/
def toString : QJsonValue → String
  | string s => s
  | _ => ""

end QJsonValue

/-- `QJsonObject::contains`. -/
def QJsonObject.contains (o : QJsonObject) (key : String) : Bool :=
  (List.lookup key o).isSome

/-- `QJsonObject::operator[]` on a constant object. -/
def QJsonObject.value (o : QJsonObject) (key : String) : QJsonValue :=
  (List.lookup key o).getD QJsonValue.undefined

/-- `QJsonArray::operator[]`: `undefined` when the index is out of range. -/
def QJsonArray.index (a : QJsonArray) (i : Nat) : QJsonValue :=
  a.getD i QJsonValue.undefined

namespace QJsonDocument

/-- `QJsonDocument::isNull`. -/
def isNull : QJsonDocument → Bool
  | null => true
  | _ => false

/-- `QJsonDocument::isObject`. -/
def isObject : QJsonDocument → Bool
  | ofObject _ => true
  | _ => false

/-- `QJsonDocument::object`: the empty object when the document holds none. -/
def object : QJsonDocument → QJsonObject
  | ofObject members => members
  | _ => []

end QJsonDocument

/-! ## networkmanager.cpp -/

/-- A finished `QNetworkReply`: `error()` (0 is `QNetworkReply::NoError`),
`errorString()` and the bytes `readAll()` returns. -/
structure QNetworkReply where
  error : Nat
  errorString : String
  body : List UInt8

/-- The signals of `NetworkManager`. -/
inductive FetchSignal where
  | contactFetched (contact : Contact)
  | fetchStarted
  | fetchFinished
  | errorOccurred (error : String)
deriving DecidableEq, Repr

/-- The object `NetworkManager`: the busy flag, the GET requests handed to the
`QNetworkAccessManager` so far and the signals emitted so far, oldest first. -/
structure NetworkManager where
  m_busy : Bool
  requests : List String
  emitted : List FetchSignal
deriving DecidableEq, Repr

namespace NetworkManager

/-- `emit signal`. -/
def emit (nm : NetworkManager) (s : FetchSignal) : NetworkManager :=
  { nm with emitted := nm.emitted ++ [s] }

/-- `NetworkManager::isBusy`. -/
def isBusy (nm : NetworkManager) : Bool := nm.m_busy

/-- `NetworkManager::fetchRandomContact`. -/
def fetchRandomContact (nm : NetworkManager) : NetworkManager :=
  if nm.m_busy then nm
  else
    let nm := { nm with m_busy := true }
    let nm := nm.emit FetchSignal.fetchStarted
    let url := "https://randomuser.me/api/?results=1"
    { nm with requests := nm.requests ++ [url] }

/-- `NetworkManager::parseJsonResponse`, with `QJsonDocument::fromJson` as `fromJson`. -/
def parseJsonResponse (fromJson : List UInt8 → QJsonDocument) (data : List UInt8) :
    Contact :=
  let contact := Contact.new
  let doc := fromJson data
  if doc.isNull || !doc.isObject then contact
  else
    let root := doc.object
    if !root.contains "results" || !(root.value "results").isArray then contact
    else
      let results := (root.value "results").toArray
      if results.isEmpty then contact
      else
        let user := (results.index 0).toObject
        let contact :=
          if user.contains "name" && (user.value "name").isObject then
            let name := (user.value "name").toObject
            { contact with
              firstName := (name.value "first").toString,
              lastName := (name.value "last").toString }
          else contact
        let contact :=
          if user.contains "email" then
            { contact with email := (user.value "email").toString }
          else contact
        let contact :=
          if user.contains "phone" then
            { contact with phone := (user.value "phone").toString }
          else contact
        let contact :=
          if user.contains "location" && (user.value "location").isObject then
            let location := (user.value "location").toObject
            let contact :=
              if location.contains "city" then
                { contact with city := (location.value "city").toString }
              else contact
            if location.contains "country" then
              { contact with country := (location.value "country").toString }
            else contact
          else contact
        contact

/-- `NetworkManager::onReplyFinished`. -/
def onReplyFinished (fromJson : List UInt8 → QJsonDocument) (nm : NetworkManager)
    (reply : QNetworkReply) : NetworkManager :=
  let nm := { nm with m_busy := false }
  let nm := nm.emit FetchSignal.fetchFinished
  if reply.error ≠ 0 then
    let errorMsg := "Network error: " ++ reply.errorString
    nm.emit (FetchSignal.errorOccurred errorMsg)
  else
    let responseData := reply.body
    let contact := parseJsonResponse fromJson responseData
    if contact.isValid then nm.emit (FetchSignal.contactFetched contact)
    else
      let errorMsg := "Failed to parse contact data from API response"
      nm.emit (FetchSignal.errorOccurred errorMsg)

end NetworkManager

/-! ## Substring search and JSON paths, as the specification words them -/

/-- The term occurs in the text as a substring, letters compared up to ASCII case. -/
def occursIn (term text : String) : Prop :=
  term.data.map Char.toLower <:+: text.data.map Char.toLower

instance occursIn.decidable (term text : String) : Decidable (occursIn term text) := by
  unfold occursIn; exact inferInstance

/-- The term occurs in at least one of the six text fields of the contact. -/
def Contact.mentions (c : Contact) (term : String) : Prop :=
  occursIn term c.firstName ∨ occursIn term c.lastName ∨ occursIn term c.email ∨
    occursIn term c.phone ∨ occursIn term c.city ∨ occursIn term c.country

instance Contact.decidableMentions (c : Contact) (term : String) :
    Decidable (c.mentions term) := by
  unfold Contact.mentions; exact inferInstance

/-- The value reached from `v` by following the member names of `path`, if every step
is a member of an object. -/
def valueAt : QJsonValue → List String → Option QJsonValue
  | v, [] => some v
  | v, key :: rest =>
    match v with
    | QJsonValue.object members =>
      match List.lookup key members with
      | some w => valueAt w rest
      | none => none
    | _ => none

/-- The string at `path` under `v`: the empty string when the path is missing or does
not hold a string. -/
def stringAt (v : QJsonValue) (path : List String) : String :=
  match valueAt v path with
  | some (QJsonValue.string s) => s
  | _ => ""

/-! ## The error channel, as the specification words it -/

/-- The promise of the error channel for one call that took the store from `before` to
`after`: if the call failed, the one signal it emitted is an error and `lastError` is
the text that error carries; if it did not fail, no signal it emitted is an error. -/
def ErrorChannel (before after : DatabaseManager) (failed : Prop) : Prop :=
  (failed → ∃ e, after.emitted = before.emitted ++ [Signal.errorOccurred e] ∧
    after.lastError = e) ∧
  (¬ failed → ∃ new, after.emitted = before.emitted ++ new ∧
    ∀ e, Signal.errorOccurred e ∉ new)

/-- The inputs on which `getAllContacts` and `searchContacts` fail: the store is not
connected, or the statement cannot run. -/
def DatabaseManager.queryFails (dm : DatabaseManager) : Prop :=
  dm.isConnected = false ∨ dm.m_database.contacts = none

/-- The inputs on which `getContact` fails: the store is not connected, the statement
cannot run, or no row has the id. -/
def DatabaseManager.getFails (dm : DatabaseManager) (id : Int) : Prop :=
  dm.queryFails ∨ ∀ rows, dm.m_database.contacts = some rows → ∀ r ∈ rows, r.id ≠ id

/-! ## Example stores -/

/-- A connected store with the two contacts of the specification's search example. -/
def annBob : DatabaseManager :=
  { m_database :=
      { isOpen := true, openError := none, seq := 2,
        contacts := some
          [⟨1, "Ann", "Lee", "a@x.com", "", "Paris", "France"⟩,
           ⟨2, "Bob", "Ng", "b@x.com", "", "Lyon", "France"⟩] },
    m_lastError := "", emitted := [] }

/-- A connected store in which Bob was stored before Ann. -/
def bobAnn : DatabaseManager :=
  { m_database :=
      { isOpen := true, openError := none, seq := 2,
        contacts := some
          [⟨1, "Bob", "Ng", "b@x.com", "", "Lyon", "France"⟩,
           ⟨2, "Ann", "Lee", "a@x.com", "", "Paris", "France"⟩] },
    m_lastError := "", emitted := [] }

/-- The document `{"results":[{"name":{"first":"Jo","last":"Doe"},"email":"jo@x.com",
"phone":"123","location":{"city":"Rome","country":"Italy"}}]}`, parsed. -/
def joDoe : QJsonDocument :=
  QJsonDocument.ofObject
    [("results", QJsonValue.array
      [QJsonValue.object
        [("name", QJsonValue.object
            [("first", QJsonValue.string "Jo"), ("last", QJsonValue.string "Doe")]),
         ("email", QJsonValue.string "jo@x.com"),
         ("phone", QJsonValue.string "123"),
         ("location", QJsonValue.object
            [("city", QJsonValue.string "Rome"), ("country", QJsonValue.string "Italy")])]])]

/-- The text of the error `onReplyFinished` reports for a body that yields no valid
contact. -/
def parseErrorText : String := "Failed to parse contact data from API response"

/-- The store `annBob` after `disconnectFromDatabase`: the table is on disk, the
connection is closed. -/
def offline : DatabaseManager :=
  { m_database :=
      { isOpen := false, openError := none, seq := 2,
        contacts := some
          [⟨1, "Ann", "Lee", "a@x.com", "", "Paris", "France"⟩,
           ⟨2, "Bob", "Ng", "b@x.com", "", "Lyon", "France"⟩] },
    m_lastError := "", emitted := [Signal.databaseDisconnected] }

/-- A connected store whose one row has the largest id a C++ `int` holds. -/
def atIntMax : DatabaseManager :=
  { m_database :=
      { isOpen := true, openError := none, seq := 2147483647,
        contacts := some [⟨2147483647, "Ann", "Lee", "a@x.com", "", "Paris", "France"⟩] },
    m_lastError := "", emitted := [] }

/-- A connected store on a new database file, before `createTable` has run. -/
def noTable : DatabaseManager :=
  { m_database := { isOpen := true, openError := none, seq := 0, contacts := none },
    m_lastError := "", emitted := [Signal.databaseConnected] }

/-- The address `fetchRandomContact` requests. -/
def randomUserUrl : String := "https://randomuser.me/api/?results=1"

/-! ## The storage engine: lemmas -/

theorem Database.le_maxRowid (rows : List Row) (seq : Int) :
    seq ≤ Database.maxRowid rows seq ∧ ∀ r ∈ rows, r.id ≤ Database.maxRowid rows seq := by
  unfold Database.maxRowid
  induction rows generalizing seq with
  | nil => simp
  | cons a rows ih =>
    simp only [List.foldl_cons, List.mem_cons]
    obtain ⟨h1, h2⟩ := ih (max seq a.id)
    refine ⟨le_trans (le_max_left _ _) h1, ?_⟩
    rintro r (rfl | hr)
    · exact le_trans (le_max_right _ _) h1
    · exact h2 r hr

theorem Database.filter_newId (rows : List Row) (seq : Int) :
    rows.filter (fun r => decide (r.id = Database.maxRowid rows seq + 1)) = [] := by
  rw [List.filter_eq_nil_iff]
  intro r hr
  have := (Database.le_maxRowid rows seq).2 r hr
  simp only [decide_eq_true_eq]
  omega

theorem Database.maxRowid_le (rows : List Row) (seq bound : Int) (hseq : seq ≤ bound)
    (hids : ∀ r ∈ rows, r.id ≤ bound) : Database.maxRowid rows seq ≤ bound := by
  unfold Database.maxRowid
  induction rows generalizing seq with
  | nil => simpa using hseq
  | cons a rows ih =>
    simp only [List.foldl_cons]
    exact ih (max seq a.id) (max_le hseq (hids a (List.mem_cons_self _ _)))
      (fun r hr => hids r (List.mem_cons_of_mem _ hr))

theorem toInt_of_fits (v : Int) (hlow : -2147483648 ≤ v) (hhigh : v ≤ 2147483647) :
    toInt v = v := by
  unfold toInt
  omega

theorem Row.nameLe_total (a b : Row) : a.nameLe b ∨ b.nameLe a := by
  unfold Row.nameLe
  rcases lt_trichotomy a.first_name.data b.first_name.data with h | h | h
  · exact Or.inl (Or.inl h)
  · rcases le_total a.last_name.data b.last_name.data with h2 | h2
    · exact Or.inl (Or.inr ⟨h, h2⟩)
    · exact Or.inr (Or.inr ⟨h.symm, h2⟩)
  · exact Or.inr (Or.inl h)

theorem Row.nameLe_trans (a b c : Row) (hab : a.nameLe b) (hbc : b.nameLe c) :
    a.nameLe c := by
  unfold Row.nameLe at *
  rcases hab with h1 | ⟨h1, h1'⟩ <;> rcases hbc with h2 | ⟨h2, h2'⟩
  · exact Or.inl (lt_trans h1 h2)
  · exact Or.inl (h2 ▸ h1)
  · exact Or.inl (h1 ▸ h2)
  · exact Or.inr ⟨h1.trans h2, le_trans h1' h2'⟩

theorem Row.sorted_insertionSort (rows : List Row) :
    List.Sorted Row.nameLe (rows.insertionSort Row.nameLe) :=
  @List.sorted_insertionSort Row Row.nameLe _ ⟨Row.nameLe_total⟩ ⟨Row.nameLe_trans⟩ rows

theorem Row.chain_toContact (rows : List Row) (h : List.Sorted Row.nameLe rows) :
    List.Chain' Contact.nameLe (rows.map Row.toContact) := by
  rw [List.chain'_map]
  exact List.Pairwise.chain' h

theorem Database.valid_open (db : Database) (h : db.Valid) : db.open.2.Valid := by
  unfold Database.open
  cases db.openError <;> exact h

theorem Database.valid_close (db : Database) (h : db.Valid) : db.close.Valid := h

theorem Database.valid_execCreateTable (db db' : Database) (h : db.Valid)
    (hexec : db.execCreateTable = .ok db') : db'.Valid := by
  unfold Database.execCreateTable at hexec
  cases hrows : db.contacts with
  | none =>
    simp only [hrows, Except.ok.injEq] at hexec
    subst hexec
    exact ⟨h.1, fun rows hr => by simp at hr; subst hr; simp⟩
  | some rows =>
    simp only [hrows, Except.ok.injEq] at hexec
    subst hexec
    exact h

theorem Database.valid_execInsert (db db' : Database) (newId : Int)
    (firstName lastName email phone city country : String) (h : db.Valid)
    (hexec : db.execInsert firstName lastName email phone city country = .ok (db', newId)) :
    db'.Valid := by
  unfold Database.execInsert at hexec
  cases hrows : db.contacts with
  | none => simp [hrows] at hexec
  | some rows =>
    simp only [hrows, Except.ok.injEq, Prod.mk.injEq] at hexec
    obtain ⟨hdb, hid⟩ := hexec
    subst hdb
    obtain ⟨hseq, hmax⟩ := Database.le_maxRowid rows db.seq
    obtain ⟨hpos, hnodup⟩ := h.2 rows hrows
    have hzero := h.1
    refine ⟨by simp only; omega, ?_⟩
    intro rows' hr
    simp only [Option.some.injEq] at hr
    subst hr
    constructor
    · intro r hr
      rcases List.mem_append.1 hr with hr | hr
      · have := hpos r hr
        have := hmax r hr
        simp only
        omega
      · simp only [List.mem_singleton] at hr
        subst hr
        simp only
        have := h.1
        omega
    · rw [List.map_append, List.nodup_append]
      refine ⟨hnodup, by simp, ?_⟩
      intro a ha hb
      simp only [List.map_cons, List.map_nil, List.mem_singleton] at hb
      obtain ⟨r, hr, rfl⟩ := List.mem_map.1 ha
      have := hmax r hr
      omega

theorem Database.valid_execUpdate (db db' : Database) (id : Int)
    (firstName lastName email phone city country : String) (h : db.Valid)
    (hexec : db.execUpdate id firstName lastName email phone city country = .ok db') :
    db'.Valid := by
  unfold Database.execUpdate at hexec
  cases hrows : db.contacts with
  | none => simp [hrows] at hexec
  | some rows =>
    simp only [hrows, Except.ok.injEq] at hexec
    subst hexec
    obtain ⟨hpos, hnodup⟩ := h.2 rows hrows
    refine ⟨h.1, ?_⟩
    intro rows' hr
    simp only [Option.some.injEq] at hr
    subst hr
    have hids : ∀ r : Row, (if r.id = id
        then (⟨r.id, firstName, lastName, email, phone, city, country⟩ : Row) else r).id
        = r.id := by
      intro r; split <;> rfl
    constructor
    · intro r hr
      obtain ⟨r0, hr0, rfl⟩ := List.mem_map.1 hr
      rw [hids]
      exact hpos r0 hr0
    · rw [List.map_map]
      have : (Row.id ∘ fun r : Row => if r.id = id
          then (⟨r.id, firstName, lastName, email, phone, city, country⟩ : Row) else r)
          = Row.id := funext hids
      rw [this]
      exact hnodup

theorem Database.valid_execDelete (db db' : Database) (id : Int) (h : db.Valid)
    (hexec : db.execDelete id = .ok db') : db'.Valid := by
  unfold Database.execDelete at hexec
  cases hrows : db.contacts with
  | none => simp [hrows] at hexec
  | some rows =>
    simp only [hrows, Except.ok.injEq] at hexec
    subst hexec
    obtain ⟨hpos, hnodup⟩ := h.2 rows hrows
    refine ⟨h.1, ?_⟩
    intro rows' hr
    simp only [Option.some.injEq] at hr
    subst hr
    exact ⟨fun r hr => hpos r (List.mem_of_mem_filter hr),
      List.Nodup.sublist (List.Sublist.map _ (List.filter_sublist _)) hnodup⟩

/-- The schema's promise is kept by every operation of the store. -/
theorem DatabaseManager.valid_preserved (dm : DatabaseManager) (h : dm.m_database.Valid) :
    (∀ host database user password port,
      (dm.connectToDatabase host database user password port).2.m_database.Valid) ∧
    dm.disconnectFromDatabase.m_database.Valid ∧
    dm.createTable.2.m_database.Valid ∧
    (∀ c, (dm.addContact c).2.m_database.Valid) ∧
    (∀ c, (dm.updateContact c).2.m_database.Valid) ∧
    (∀ id, (dm.deleteContact id).2.m_database.Valid) ∧
    (∀ id, (dm.getContact id).2.m_database = dm.m_database) ∧
    dm.getAllContacts.2.m_database = dm.m_database ∧
    (∀ term, (dm.searchContacts term).2.m_database = dm.m_database) := by
  have hall : dm.getAllContacts.2.m_database = dm.m_database := by
    unfold DatabaseManager.getAllContacts
    cases dm.isConnected
    · rfl
    · cases dm.m_database.execSelectAll <;> rfl
  refine ⟨?_, ?_, ?_, ?_, ?_, ?_, ?_, hall, ?_⟩
  · intro _ _ _ _ _
    unfold DatabaseManager.connectToDatabase
    have := Database.valid_open _ h
    cases hopen : dm.m_database.open.1 <;> simpa [hopen, DatabaseManager.setLastError,
      DatabaseManager.emit] using this
  · unfold DatabaseManager.disconnectFromDatabase
    cases dm.m_database.isOpen
    · exact h
    · exact Database.valid_close _ h
  · unfold DatabaseManager.createTable
    cases dm.isConnected
    · exact h
    · cases hexec : dm.m_database.execCreateTable with
      | error e => exact h
      | ok db => exact Database.valid_execCreateTable _ _ h hexec
  · intro c
    unfold DatabaseManager.addContact
    cases dm.isConnected
    · exact h
    · cases c.isValid
      · exact h
      · cases hexec : dm.m_database.execInsert c.firstName c.lastName c.email c.phone
            c.city c.country with
        | error e => exact h
        | ok res => exact Database.valid_execInsert _ _ _ _ _ _ _ _ _ h hexec
  · intro c
    unfold DatabaseManager.updateContact
    cases dm.isConnected
    · exact h
    · by_cases hc : (decide (c.id ≤ 0) || !c.isValid) = true
      · simpa [hc, DatabaseManager.setLastError] using h
      · cases hexec : dm.m_database.execUpdate c.id c.firstName c.lastName c.email c.phone
            c.city c.country with
        | error e => simpa [hc, hexec, DatabaseManager.setLastError] using h
        | ok db =>
          simpa [hc, hexec, DatabaseManager.emit] using
            Database.valid_execUpdate _ _ _ _ _ _ _ _ _ h hexec
  · intro id
    unfold DatabaseManager.deleteContact
    cases dm.isConnected
    · exact h
    · by_cases hid : id ≤ 0
      · simpa [hid, DatabaseManager.setLastError] using h
      · cases hexec : dm.m_database.execDelete id with
        | error e => simpa [hid, hexec, DatabaseManager.setLastError] using h
        | ok db =>
          simpa [hid, hexec, DatabaseManager.emit] using
            Database.valid_execDelete _ _ _ h hexec
  · intro id
    unfold DatabaseManager.getContact
    cases dm.isConnected
    · rfl
    · cases hexec : dm.m_database.execSelectById id with
      | error e => rfl
      | ok rows => cases rows <;> rfl
  · intro term
    unfold DatabaseManager.searchContacts
    cases dm.isConnected
    · rfl
    · by_cases ht : term.isEmpty = true
      · simpa [ht] using hall
      · cases hexec : dm.m_database.execSelectLike ("%" ++ term ++ "%") <;>
          simp [ht, hexec, DatabaseManager.setLastError]

/-- A database file that does not exist yet keeps the schema's promise. -/
theorem Database.valid_fresh (isOpen : Bool) (openError : Option String) :
    (Database.mk isOpen openError none 0).Valid :=
  ⟨le_refl _, fun rows hr => by simp at hr⟩

theorem annBob_valid : annBob.m_database.Valid := by
  refine ⟨by decide, ?_⟩
  intro rows hrows
  have h : rows = [⟨1, "Ann", "Lee", "a@x.com", "", "Paris", "France"⟩,
      ⟨2, "Bob", "Ng", "b@x.com", "", "Lyon", "France"⟩] := by
    simpa [annBob] using hrows.symm
  subst h
  decide

theorem atIntMax_valid : atIntMax.m_database.Valid := by
  refine ⟨by decide, ?_⟩
  intro rows hrows
  have h : rows = [⟨2147483647, "Ann", "Lee", "a@x.com", "", "Paris", "France"⟩] := by
    simpa [atIntMax] using hrows.symm
  subst h
  decide

theorem isValid_iff (c : Contact) :
    c.isValid = true ↔ c.firstName ≠ "" ∧ c.lastName ≠ "" := by
  simp [Contact.isValid, ← String.isEmpty_iff]

/-! ## The store: add, get, update, delete -/

/-- C1, amended to stores whose next id fits a C++ `int`: on a connected store whose
table exists and obeys its schema, with the `AUTOINCREMENT` counter below 2147483647,
adding a contact with non-empty first and last name succeeds, emits exactly
`contactAdded newId`, and `getContact newId` then returns the contact with its six text
fields as given and `newId` as id (the id of the input plays no part). -/
theorem addContact_getContact_roundtrip (dm : DatabaseManager) (c : Contact)
    (hconn : dm.isConnected = true) (hschema : dm.m_database.contacts.isSome = true)
    (hdb : dm.m_database.Valid) (hfit : dm.m_database.seq < 2147483647)
    (hfirst : c.firstName ≠ "") (hlast : c.lastName ≠ "") :
    ∃ newId : Int,
      (dm.addContact c).1 = true ∧
      (dm.addContact c).2.emitted = dm.emitted ++ [Signal.contactAdded newId] ∧
      ((dm.addContact c).2.getContact newId).1 = { c with id := newId } := by
  have hvalid : c.isValid = true := (isValid_iff c).2 ⟨hfirst, hlast⟩
  obtain ⟨rows, hrows⟩ := Option.isSome_iff_exists.1 hschema
  have hopen : dm.m_database.isOpen = true := hconn
  have hseq := (Database.le_maxRowid rows dm.m_database.seq).1
  have hmax := Database.maxRowid_le rows dm.m_database.seq dm.m_database.seq (le_refl _)
    (fun r hr => ((hdb.2 rows hrows).1 r hr).2)
  have hzero := hdb.1
  have hnarrow : toInt (Database.maxRowid rows dm.m_database.seq + 1) =
      Database.maxRowid rows dm.m_database.seq + 1 :=
    toInt_of_fits _ (by omega) (by omega)
  refine ⟨Database.maxRowid rows dm.m_database.seq + 1, ?_⟩
  simp [DatabaseManager.addContact, DatabaseManager.getContact, DatabaseManager.isConnected,
    DatabaseManager.emit, Database.execInsert, Database.execSelectById, hopen, hvalid, hrows,
    List.filter_append, Database.filter_newId, Row.toContact, hnarrow]

/-- The witness of C1: the round trip on the store `annBob`. -/
theorem addContact_getContact_roundtrip_witness :
    ∃ newId : Int,
      (annBob.addContact ⟨-1, "Jo", "Doe", "jo@x.com", "123", "Rome", "Italy"⟩).1 = true ∧
      (annBob.addContact ⟨-1, "Jo", "Doe", "jo@x.com", "123", "Rome", "Italy"⟩).2.emitted =
        annBob.emitted ++ [Signal.contactAdded newId] ∧
      ((annBob.addContact ⟨-1, "Jo", "Doe", "jo@x.com", "123", "Rome", "Italy"⟩).2.getContact
        newId).1 = ⟨newId, "Jo", "Doe", "jo@x.com", "123", "Rome", "Italy"⟩ :=
  addContact_getContact_roundtrip annBob ⟨-1, "Jo", "Doe", "jo@x.com", "123", "Rome", "Italy"⟩
    (by decide) (by decide) annBob_valid (by decide) (by decide) (by decide)

/-- C1 as stated fails on a store whose largest id is the largest C++ `int`: the store
`atIntMax` is connected, its table exists and obeys the schema, and the contact has
both names. `addContact` succeeds and stores the row under id 2147483648, but the id it
emits is narrowed to -2147483648, and `getContact` on that id finds no row: it returns
the default contact and records "Contact not found". -/
theorem addContact_getContact_int_max :
    atIntMax.m_database.Valid ∧
      atIntMax.isConnected = true ∧
      atIntMax.m_database.contacts.isSome = true ∧
      (atIntMax.addContact ⟨-1, "Jo", "Doe", "jo@x.com", "123", "Rome", "Italy"⟩).1 = true ∧
      (atIntMax.addContact ⟨-1, "Jo", "Doe", "jo@x.com", "123", "Rome", "Italy"⟩).2.emitted =
        atIntMax.emitted ++ [Signal.contactAdded (-2147483648)] ∧
      (atIntMax.addContact
          ⟨-1, "Jo", "Doe", "jo@x.com", "123", "Rome", "Italy"⟩).2.m_database.contacts =
        some [⟨2147483647, "Ann", "Lee", "a@x.com", "", "Paris", "France"⟩,
          ⟨2147483648, "Jo", "Doe", "jo@x.com", "123", "Rome", "Italy"⟩] ∧
      ((atIntMax.addContact ⟨-1, "Jo", "Doe", "jo@x.com", "123", "Rome", "Italy"⟩).2.getContact
        (-2147483648)).1 = Contact.new ∧
      ((atIntMax.addContact ⟨-1, "Jo", "Doe", "jo@x.com", "123", "Rome", "Italy"⟩).2.getContact
        (-2147483648)).1.firstName ≠ "Jo" ∧
      ((atIntMax.addContact ⟨-1, "Jo", "Doe", "jo@x.com", "123", "Rome", "Italy"⟩).2.getContact
        (-2147483648)).2.lastError = "Contact not found" :=
  ⟨atIntMax_valid, by decide⟩

/-- C2: on a connected store, adding a contact whose first or last name is empty
returns false with the error "Invalid contact data"; the database is untouched and the
only signal emitted is that error, so no `contactAdded`. -/
theorem addContact_invalid (dm : DatabaseManager) (c : Contact)
    (hconn : dm.isConnected = true) (hempty : c.firstName = "" ∨ c.lastName = "") :
    (dm.addContact c).1 = false ∧
      (dm.addContact c).2.lastError = "Invalid contact data" ∧
      (dm.addContact c).2.m_database = dm.m_database ∧
      (dm.addContact c).2.emitted =
        dm.emitted ++ [Signal.errorOccurred "Invalid contact data"] := by
  have hinvalid : c.isValid = false := by
    rw [← Bool.not_eq_true, isValid_iff]
    rcases hempty with h | h <;> simp [h]
  have hopen : dm.m_database.isOpen = true := hconn
  simp [DatabaseManager.addContact, DatabaseManager.isConnected, DatabaseManager.setLastError,
    DatabaseManager.lastError, hopen, hinvalid]

/-- The witness of C2: a contact without a last name, with every other field set. -/
theorem addContact_invalid_witness :
    (annBob.addContact ⟨5, "Jo", "", "jo@x.com", "123", "Rome", "Italy"⟩).1 = false ∧
      (annBob.addContact ⟨5, "Jo", "", "jo@x.com", "123", "Rome", "Italy"⟩).2.lastError =
        "Invalid contact data" ∧
      (annBob.addContact ⟨5, "Jo", "", "jo@x.com", "123", "Rome", "Italy"⟩).2.m_database =
        annBob.m_database ∧
      (annBob.addContact ⟨5, "Jo", "", "jo@x.com", "123", "Rome", "Italy"⟩).2.emitted =
        annBob.emitted ++ [Signal.errorOccurred "Invalid contact data"] :=
  addContact_invalid annBob ⟨5, "Jo", "", "jo@x.com", "123", "Rome", "Italy"⟩
    (by decide) (by decide)

theorem Database.filter_map_update (rows : List Row) (id : Int)
    (firstName lastName email phone city country : String)
    (hmem : ∃ r ∈ rows, r.id = id) :
    ∃ others, (rows.map fun r =>
        if r.id = id then (⟨r.id, firstName, lastName, email, phone, city, country⟩ : Row)
        else r).filter (fun r => decide (r.id = id)) =
      ⟨id, firstName, lastName, email, phone, city, country⟩ :: others := by
  induction rows with
  | nil => simp at hmem
  | cons a rows ih =>
    by_cases ha : a.id = id
    · simp [ha]
    · have hrest : ∃ r ∈ rows, r.id = id := by
        obtain ⟨r, hr, hid⟩ := hmem
        rcases List.mem_cons.1 hr with rfl | hr
        · exact absurd hid ha
        · exact ⟨r, hr, hid⟩
      obtain ⟨others, ho⟩ := ih hrest
      exact ⟨others, by simpa [ha] using ho⟩

/-- C4: on a connected store (the table obeying its schema), updating with a valid
contact whose id is the id of a stored row succeeds, and `getContact` on that id then
returns exactly the contact given: all six text fields, emptied ones included. -/
theorem updateContact_getContact (dm : DatabaseManager) (c : Contact) (rows : List Row)
    (hconn : dm.isConnected = true) (hdb : dm.m_database.Valid)
    (hrows : dm.m_database.contacts = some rows) (hmem : ∃ r ∈ rows, r.id = c.id)
    (hvalid : c.isValid = true) :
    (dm.updateContact c).1 = true ∧
      (dm.updateContact c).2.emitted = dm.emitted ++ [Signal.contactUpdated c.id] ∧
      ((dm.updateContact c).2.getContact c.id).1 = c := by
  have hopen : dm.m_database.isOpen = true := hconn
  have hpos : ¬ c.id ≤ 0 := by
    obtain ⟨r, hr, hid⟩ := hmem
    have := ((hdb.2 rows hrows).1 r hr).1
    omega
  obtain ⟨others, ho⟩ := Database.filter_map_update rows c.id c.firstName c.lastName c.email
    c.phone c.city c.country hmem
  simp [DatabaseManager.updateContact, DatabaseManager.getContact, DatabaseManager.isConnected,
    DatabaseManager.emit, Database.execUpdate, Database.execSelectById, hopen, hvalid, hrows,
    hpos, ho, Row.toContact]

/-- The witness of C4: Bob's row of `annBob` is replaced, its email and city emptied. -/
theorem updateContact_getContact_witness :
    (annBob.updateContact ⟨2, "Rob", "Ng", "", "555", "", "France"⟩).1 = true ∧
      (annBob.updateContact ⟨2, "Rob", "Ng", "", "555", "", "France"⟩).2.emitted =
        annBob.emitted ++ [Signal.contactUpdated 2] ∧
      ((annBob.updateContact ⟨2, "Rob", "Ng", "", "555", "", "France"⟩).2.getContact 2).1 =
        ⟨2, "Rob", "Ng", "", "555", "", "France"⟩ :=
  updateContact_getContact annBob ⟨2, "Rob", "Ng", "", "555", "", "France"⟩
    [⟨1, "Ann", "Lee", "a@x.com", "", "Paris", "France"⟩,
     ⟨2, "Bob", "Ng", "b@x.com", "", "Lyon", "France"⟩]
    (by decide) annBob_valid rfl (by decide) (by decide)

/-- C5: on a connected store, once `deleteContact id` with `id > 0` has succeeded,
`getContact id` finds no row, whether or not one existed before: it returns the
default contact (id -1, empty names, not valid) and records "Contact not found". -/
theorem deleteContact_getContact (dm : DatabaseManager) (id : Int)
    (hconn : dm.isConnected = true) (hid : 0 < id) (hdel : (dm.deleteContact id).1 = true) :
    ((dm.deleteContact id).2.getContact id).1 = Contact.new ∧
      Contact.new.id = -1 ∧ Contact.new.firstName = "" ∧ Contact.new.lastName = "" ∧
      Contact.new.isValid = false ∧
      ((dm.deleteContact id).2.getContact id).2.lastError = "Contact not found" ∧
      ((dm.deleteContact id).2.getContact id).2.emitted =
        (dm.deleteContact id).2.emitted ++ [Signal.errorOccurred "Contact not found"] := by
  have hopen : dm.m_database.isOpen = true := hconn
  have hpos : ¬ id ≤ 0 := by omega
  cases hrows : dm.m_database.contacts with
  | none =>
    simp [DatabaseManager.deleteContact, DatabaseManager.isConnected, Database.execDelete,
      hopen, hpos, hrows] at hdel
  | some rows =>
    have hnone : (rows.filter fun r => !decide (r.id = id)).filter
        (fun r => decide (r.id = id)) = [] := by
      rw [List.filter_eq_nil_iff]
      intro r hr
      have := (List.mem_filter.1 hr).2
      simpa using this
    simp [DatabaseManager.deleteContact, DatabaseManager.getContact,
      DatabaseManager.isConnected, DatabaseManager.emit, DatabaseManager.setLastError,
      DatabaseManager.lastError, Database.execDelete, Database.execSelectById, hopen, hpos,
      hrows, hnone, Contact.new, Contact.isValid, String.isEmpty_iff]

/-- The witness of C5: Ann's row of `annBob` is deleted and then looked up. -/
theorem deleteContact_getContact_witness :
    ((annBob.deleteContact 1).2.getContact 1).1 = Contact.new ∧
      Contact.new.id = -1 ∧ Contact.new.firstName = "" ∧ Contact.new.lastName = "" ∧
      Contact.new.isValid = false ∧
      ((annBob.deleteContact 1).2.getContact 1).2.lastError = "Contact not found" ∧
      ((annBob.deleteContact 1).2.getContact 1).2.emitted =
        (annBob.deleteContact 1).2.emitted ++ [Signal.errorOccurred "Contact not found"] :=
  deleteContact_getContact annBob 1 (by decide) (by decide) (by decide)

/-- C7: in every state of the store, connected or not, `searchContacts ""` returns what
`getAllContacts` returns, the same contacts in the same order, and leaves the store in
the same state. -/
theorem searchContacts_empty (dm : DatabaseManager) :
    (dm.searchContacts "").1 = dm.getAllContacts.1 ∧
      dm.searchContacts "" = dm.getAllContacts := by
  have h : dm.searchContacts "" = dm.getAllContacts := by
    unfold DatabaseManager.searchContacts DatabaseManager.getAllContacts
    cases hc : dm.isConnected <;> simp [String.isEmpty_iff]
  exact ⟨congrArg Prod.fst h, h⟩

/-- C6: the sequences returned by `getAllContacts` and by `searchContacts term`, for
every store and every term, are sorted by first name and then last name: each result
is below or equal to the next one under `Contact.nameLe`, the engine's string order on
the pair of names. With Bob stored before Ann, Ann is returned before Bob. -/
theorem results_sorted (dm : DatabaseManager) (term : String) :
    List.Chain' Contact.nameLe dm.getAllContacts.1 ∧
      List.Chain' Contact.nameLe (dm.searchContacts term).1 ∧
      bobAnn.getAllContacts.1.map Contact.firstName = ["Ann", "Bob"] ∧
      (bobAnn.searchContacts "france").1.map Contact.firstName = ["Ann", "Bob"] := by
  have hall : List.Chain' Contact.nameLe dm.getAllContacts.1 := by
    unfold DatabaseManager.getAllContacts
    cases dm.isConnected
    · simp
    · cases hrows : dm.m_database.contacts with
      | none => simp [Database.execSelectAll, hrows]
      | some rows =>
        simpa [Database.execSelectAll, hrows] using
          Row.chain_toContact _ (Row.sorted_insertionSort rows)
  refine ⟨hall, ?_, by decide, by decide⟩
  unfold DatabaseManager.searchContacts
  cases dm.isConnected
  · simp
  · by_cases hterm : term.isEmpty = true
    · simpa [hterm] using hall
    · cases hrows : dm.m_database.contacts with
      | none => simp [Database.execSelectLike, hrows, hterm]
      | some rows =>
        simpa [Database.execSelectLike, hrows, hterm] using
          Row.chain_toContact _ (Row.sorted_insertionSort _)

/-! ## Search -/

theorem likeAny_iff (rest : List Char → Bool) (s : List Char) :
    likeAny rest s = true ↔ ∃ u, u <:+ s ∧ rest u = true := by
  induction s with
  | nil => simp [likeAny]
  | cons c s ih =>
    simp only [likeAny, Bool.or_eq_true, ih, List.suffix_cons_iff]
    constructor
    · rintro (h | ⟨u, hu, h⟩)
      · exact ⟨c :: s, Or.inl rfl, h⟩
      · exact ⟨u, Or.inr hu, h⟩
    · rintro ⟨u, rfl | hu, h⟩
      · exact Or.inl h
      · exact Or.inr ⟨u, hu, h⟩

theorem likeMatch_plain (t : List Char) (hplain : ∀ ch ∈ t, ch ≠ '%' ∧ ch ≠ '_')
    (s : List Char) :
    likeMatch (t ++ ['%']) s = true ↔ t.map Char.toLower <+: s.map Char.toLower := by
  induction t generalizing s with
  | nil => simp [likeMatch, likeAny_iff, List.isEmpty_iff]
  | cons p ps ih =>
    have hp := hplain p (List.mem_cons_self _ _)
    have hps : ∀ ch ∈ ps, ch ≠ '%' ∧ ch ≠ '_' :=
      fun ch hch => hplain ch (List.mem_cons_of_mem _ hch)
    cases s with
    | nil => simp [likeMatch, hp.1]
    | cons c cs =>
      simp [likeMatch, hp.1, hp.2, ih hps cs, List.cons_prefix_cons]

theorem like_plain (term text : String) (hplain : ∀ ch ∈ term.data, ch ≠ '%' ∧ ch ≠ '_') :
    like text ("%" ++ term ++ "%") = true ↔ occursIn term text := by
  have hpat : ("%" ++ term ++ "%").data = '%' :: (term.data ++ ['%']) := by
    simp [String.data_append]
  unfold like occursIn
  rw [hpat]
  simp only [likeMatch, if_true, likeAny_iff, likeMatch_plain term.data hplain,
    List.infix_iff_prefix_suffix]
  constructor
  · rintro ⟨u, hu, h⟩
    exact ⟨_, h, List.IsSuffix.map _ hu⟩
  · rintro ⟨w, h, hw⟩
    obtain ⟨u, hu, rfl⟩ := List.isSuffix_map_iff.1 hw
    exact ⟨u, hu, h⟩

/-- For a non-empty term without `%` and `_`, on a connected store whose table exists,
`searchContacts` returns exactly the stored contacts in which the term occurs. -/
theorem searchContacts_plain (dm : DatabaseManager) (rows : List Row) (term : String)
    (hconn : dm.isConnected = true) (hrows : dm.m_database.contacts = some rows)
    (hterm : term ≠ "") (hplain : ∀ ch ∈ term.data, ch ≠ '%' ∧ ch ≠ '_') (c : Contact) :
    c ∈ (dm.searchContacts term).1 ↔ c ∈ rows.map Row.toContact ∧ c.mentions term := by
  have hopen : dm.m_database.isOpen = true := hconn
  have hne : term.isEmpty = false := by
    rw [← Bool.not_eq_true, String.isEmpty_iff]; exact hterm
  have hlike : ∀ text, like text ("%" ++ term ++ "%") = true ↔ occursIn term text :=
    fun text => like_plain term text hplain
  simp only [DatabaseManager.searchContacts, DatabaseManager.isConnected, hopen, hne,
    Database.execSelectLike, hrows, Bool.not_true, Bool.false_eq_true, if_false,
    List.nil_append, List.mem_map, List.mem_insertionSort, List.mem_filter,
    Bool.or_eq_true, hlike, Contact.mentions]
  constructor
  · rintro ⟨r, ⟨hr, hm⟩, rfl⟩
    exact ⟨⟨r, hr, rfl⟩, by simpa [Row.toContact, or_assoc] using hm⟩
  · rintro ⟨⟨r, hr, rfl⟩, hm⟩
    exact ⟨r, ⟨hr, by simpa [Row.toContact, or_assoc] using hm⟩, rfl⟩

/-- C3, the code at the terms "_" and "%": `searchContacts` returns Ann and Bob although
neither character occurs in any field of either contact, because the term is put into
the `LIKE` pattern as it is. The three searches the specification gives as examples
come out as it says. -/
theorem searchContacts_wildcard :
    (annBob.searchContacts "_").1 =
        [⟨1, "Ann", "Lee", "a@x.com", "", "Paris", "France"⟩,
         ⟨2, "Bob", "Ng", "b@x.com", "", "Lyon", "France"⟩] ∧
      (annBob.searchContacts "%").1 =
        [⟨1, "Ann", "Lee", "a@x.com", "", "Paris", "France"⟩,
         ⟨2, "Bob", "Ng", "b@x.com", "", "Lyon", "France"⟩] ∧
      (∀ c ∈ (annBob.searchContacts "_").1, ¬ c.mentions "_") ∧
      (∀ c ∈ (annBob.searchContacts "%").1, ¬ c.mentions "%") ∧
      (annBob.searchContacts "lyon").1 = [⟨2, "Bob", "Ng", "b@x.com", "", "Lyon", "France"⟩] ∧
      (annBob.searchContacts "FRANCE").1 =
        [⟨1, "Ann", "Lee", "a@x.com", "", "Paris", "France"⟩,
         ⟨2, "Bob", "Ng", "b@x.com", "", "Lyon", "France"⟩] ∧
      (annBob.searchContacts "zzz").1 = [] := by
  decide

/-! ## The fetcher -/

theorem stringAt_toObject (v : QJsonValue) (key : String) (rest : List String) :
    stringAt v (key :: rest) = stringAt (QJsonValue.object v.toObject) (key :: rest) := by
  cases v <;> simp [stringAt, valueAt, QJsonValue.toObject]

theorem stringAt_one (o : QJsonObject) (key : String) :
    stringAt (QJsonValue.object o) [key] = (o.value key).toString := by
  cases h : List.lookup key o with
  | none => simp [stringAt, valueAt, QJsonObject.value, h, QJsonValue.toString]
  | some w => cases w <;> simp [stringAt, valueAt, QJsonObject.value, h, QJsonValue.toString]

theorem stringAt_one_contains (o : QJsonObject) (key : String) :
    (if o.contains key then (o.value key).toString else "") =
      stringAt (QJsonValue.object o) [key] := by
  rw [stringAt_one]
  unfold QJsonObject.contains QJsonObject.value
  cases h : List.lookup key o <;> simp [QJsonValue.toString]

theorem stringAt_two (o : QJsonObject) (key sub : String) :
    (if o.contains key && (o.value key).isObject
      then ((o.value key).toObject.value sub).toString else "") =
      stringAt (QJsonValue.object o) [key, sub] := by
  unfold QJsonObject.contains
  cases h : List.lookup key o with
  | none => simp [stringAt, valueAt, h]
  | some w =>
    have hv : QJsonObject.value o key = w := by simp [QJsonObject.value, h]
    cases w with
    | object members =>
      have := stringAt_one members sub
      simp only [stringAt, valueAt, h] at this ⊢
      simp [hv, QJsonValue.isObject, QJsonValue.toObject, this]
    | _ => simp [stringAt, valueAt, h, hv, QJsonValue.isObject]

theorem stringAt_two_contains (o : QJsonObject) (key sub : String) :
    (if o.contains key && (o.value key).isObject
      then (if (o.value key).toObject.contains sub
        then ((o.value key).toObject.value sub).toString else "") else "") =
      stringAt (QJsonValue.object o) [key, sub] := by
  rw [← stringAt_two]
  split
  · rw [stringAt_one_contains, stringAt_one]
  · rfl

theorem parseJsonResponse_eq (fromJson : List UInt8 → QJsonDocument) (data : List UInt8)
    (root : QJsonObject) (first : QJsonValue) (rest : List QJsonValue)
    (hdoc : fromJson data = QJsonDocument.ofObject root)
    (hres : List.lookup "results" root = some (QJsonValue.array (first :: rest))) :
    NetworkManager.parseJsonResponse fromJson data =
      ⟨-1, stringAt first ["name", "first"], stringAt first ["name", "last"],
        stringAt first ["email"], stringAt first ["phone"],
        stringAt first ["location", "city"], stringAt first ["location", "country"]⟩ := by
  simp only [stringAt_toObject first]
  rw [← stringAt_two, ← stringAt_two, ← stringAt_one_contains, ← stringAt_one_contains,
    ← stringAt_two_contains, ← stringAt_two_contains]
  have hresults : QJsonObject.contains root "results" = true ∧
      QJsonObject.value root "results" = QJsonValue.array (first :: rest) := by
    simp [QJsonObject.contains, QJsonObject.value, hres]
  have huser : QJsonArray.index (first :: rest) 0 = first := rfl
  unfold NetworkManager.parseJsonResponse
  simp only [hdoc, QJsonDocument.isNull, QJsonDocument.isObject, QJsonDocument.object,
    hresults.1, hresults.2, QJsonValue.isArray, QJsonValue.toArray, huser,
    List.isEmpty_cons, Bool.not_true, Bool.or_self, Bool.false_eq_true, if_false,
    Bool.not_false]
  generalize (first.toObject.contains "name" && (first.toObject.value "name").isObject) = b1
  generalize first.toObject.contains "email" = b2
  generalize first.toObject.contains "phone" = b3
  generalize (first.toObject.contains "location" &&
    (first.toObject.value "location").isObject) = b4
  generalize (first.toObject.value "location").toObject.contains "city" = b5
  generalize (first.toObject.value "location").toObject.contains "country" = b6
  cases b1 <;> cases b2 <;> cases b3 <;> cases b4 <;> cases b5 <;> cases b6 <;> rfl

theorem parseJsonResponse_noResults (fromJson : List UInt8 → QJsonDocument)
    (data : List UInt8)
    (hbad : fromJson data = QJsonDocument.null ∨
      (∃ items, fromJson data = QJsonDocument.ofArray items) ∨
      (∃ root, fromJson data = QJsonDocument.ofObject root ∧
        (List.lookup "results" root = none ∨
          (∃ v, List.lookup "results" root = some v ∧ v.isArray = false) ∨
          List.lookup "results" root = some (QJsonValue.array [])))) :
    NetworkManager.parseJsonResponse fromJson data = Contact.new := by
  unfold NetworkManager.parseJsonResponse
  rcases hbad with h | ⟨items, h⟩ | ⟨root, h, hr | ⟨v, hr, hv⟩ | hr⟩
  · simp [h, QJsonDocument.isNull]
  · simp [h, QJsonDocument.isNull, QJsonDocument.isObject]
  · simp [h, QJsonDocument.isNull, QJsonDocument.isObject, QJsonDocument.object,
      QJsonObject.contains, hr]
  · simp [h, QJsonDocument.isNull, QJsonDocument.isObject, QJsonDocument.object,
      QJsonObject.contains, QJsonObject.value, hr, hv]
  · simp [h, QJsonDocument.isNull, QJsonDocument.isObject, QJsonDocument.object,
      QJsonObject.contains, QJsonObject.value, hr, QJsonValue.isArray, QJsonValue.toArray]

theorem onReplyFinished_emitted (fromJson : List UInt8 → QJsonDocument)
    (nm : NetworkManager) (reply : QNetworkReply) (hok : reply.error = 0) :
    (NetworkManager.onReplyFinished fromJson nm reply).emitted =
      nm.emitted ++ [FetchSignal.fetchFinished,
        if (NetworkManager.parseJsonResponse fromJson reply.body).isValid = true
        then FetchSignal.contactFetched (NetworkManager.parseJsonResponse fromJson reply.body)
        else FetchSignal.errorOccurred parseErrorText] := by
  unfold NetworkManager.onReplyFinished
  by_cases hv : (NetworkManager.parseJsonResponse fromJson reply.body).isValid = true <;>
    simp [hok, hv, NetworkManager.emit, parseErrorText]

/-- C8: for a document that is an object whose member `results` is a non-empty array,
`parseJsonResponse` returns the contact with id -1 whose six text fields are the
strings found in `results[0]` at `name.first`, `name.last`, `email`, `phone`,
`location.city` and `location.country`, each the empty string when its path is missing
or does not hold a string. The function is total: no absent field makes it fail. -/
theorem parseJsonResponse_fields (fromJson : List UInt8 → QJsonDocument) (data : List UInt8)
    (root : QJsonObject) (first : QJsonValue) (rest : List QJsonValue)
    (hdoc : fromJson data = QJsonDocument.ofObject root)
    (hres : List.lookup "results" root = some (QJsonValue.array (first :: rest))) :
    NetworkManager.parseJsonResponse fromJson data =
      ⟨-1, stringAt first ["name", "first"], stringAt first ["name", "last"],
        stringAt first ["email"], stringAt first ["phone"],
        stringAt first ["location", "city"], stringAt first ["location", "country"]⟩ :=
  parseJsonResponse_eq fromJson data root first rest hdoc hres

/-- The witness of C8: the document `joDoe` yields the valid contact
(Jo, Doe, jo@x.com, 123, Rome, Italy). -/
theorem parseJsonResponse_fields_witness :
    NetworkManager.parseJsonResponse (fun _ => joDoe) [] =
        ⟨-1, "Jo", "Doe", "jo@x.com", "123", "Rome", "Italy"⟩ ∧
      (NetworkManager.parseJsonResponse (fun _ => joDoe) []).isValid = true := by
  have h := parseJsonResponse_fields (fun _ => joDoe) [] _ _ [] rfl rfl
  have hfields : NetworkManager.parseJsonResponse (fun _ => joDoe) [] =
      ⟨-1, "Jo", "Doe", "jo@x.com", "123", "Rome", "Italy"⟩ := h
  exact ⟨hfields, by rw [hfields]; decide⟩

/-- C9: for a reply without transport error, `onReplyFinished` emits `fetchFinished`
and then exactly one outcome signal: `contactFetched` with the parsed contact when that
contact is valid, and otherwise the parse error alone. A body that does not parse, is
not an object, has `results` missing, not an array or empty, or whose `results[0]` has
neither `name.first` nor `name.last`, gives the parse error. -/
theorem onReplyFinished_outcome (fromJson : List UInt8 → QJsonDocument)
    (nm : NetworkManager) (reply : QNetworkReply) (hok : reply.error = 0) :
    ((NetworkManager.parseJsonResponse fromJson reply.body).isValid = true →
      (NetworkManager.onReplyFinished fromJson nm reply).emitted =
        nm.emitted ++ [FetchSignal.fetchFinished,
          FetchSignal.contactFetched (NetworkManager.parseJsonResponse fromJson reply.body)]) ∧
    ((NetworkManager.parseJsonResponse fromJson reply.body).isValid = false →
      (NetworkManager.onReplyFinished fromJson nm reply).emitted =
        nm.emitted ++ [FetchSignal.fetchFinished, FetchSignal.errorOccurred parseErrorText]) ∧
    ((fromJson reply.body = QJsonDocument.null ∨
      (∃ items, fromJson reply.body = QJsonDocument.ofArray items) ∨
      (∃ root, fromJson reply.body = QJsonDocument.ofObject root ∧
        (List.lookup "results" root = none ∨
          (∃ v, List.lookup "results" root = some v ∧ v.isArray = false) ∨
          List.lookup "results" root = some (QJsonValue.array []) ∨
          (∃ first rest,
            List.lookup "results" root = some (QJsonValue.array (first :: rest)) ∧
            valueAt first ["name", "first"] = none ∧
            valueAt first ["name", "last"] = none)))) →
      (NetworkManager.onReplyFinished fromJson nm reply).emitted =
        nm.emitted ++ [FetchSignal.fetchFinished, FetchSignal.errorOccurred parseErrorText]) := by
  have hem := onReplyFinished_emitted fromJson nm reply hok
  have hinvalid : (NetworkManager.parseJsonResponse fromJson reply.body).isValid = false →
      (NetworkManager.onReplyFinished fromJson nm reply).emitted =
        nm.emitted ++ [FetchSignal.fetchFinished, FetchSignal.errorOccurred parseErrorText] := by
    intro hv
    rw [hem, hv]
    simp
  refine ⟨fun hv => by rw [hem, if_pos hv], hinvalid, fun hbad => hinvalid ?_⟩
  rcases hbad with h | h | ⟨root, h, hr | hr | hr | ⟨first, rest, hr, hf, _⟩⟩
  · rw [parseJsonResponse_noResults fromJson _ (Or.inl h)]; decide
  · rw [parseJsonResponse_noResults fromJson _ (Or.inr (Or.inl h))]; decide
  · rw [parseJsonResponse_noResults fromJson _ (Or.inr (Or.inr ⟨root, h, Or.inl hr⟩))]; decide
  · rw [parseJsonResponse_noResults fromJson _
      (Or.inr (Or.inr ⟨root, h, Or.inr (Or.inl hr)⟩))]; decide
  · rw [parseJsonResponse_noResults fromJson _
      (Or.inr (Or.inr ⟨root, h, Or.inr (Or.inr hr)⟩))]; decide
  · rw [parseJsonResponse_eq fromJson _ root first rest h hr]
    simp [Contact.isValid, stringAt, hf, String.isEmpty_iff]

/-- The witness of C9: a reply without error whose body parses to `joDoe` gives
`fetchFinished` and then `contactFetched`; one whose body does not parse gives
`fetchFinished` and then the parse error. -/
theorem onReplyFinished_outcome_witness :
    (NetworkManager.onReplyFinished (fun _ => joDoe) ⟨true, [], []⟩ ⟨0, "", []⟩).emitted =
        [FetchSignal.fetchFinished,
          FetchSignal.contactFetched ⟨-1, "Jo", "Doe", "jo@x.com", "123", "Rome", "Italy"⟩] ∧
      (NetworkManager.onReplyFinished (fun _ => QJsonDocument.null) ⟨true, [], []⟩
          ⟨0, "", []⟩).emitted =
        [FetchSignal.fetchFinished, FetchSignal.errorOccurred parseErrorText] :=
  ⟨(onReplyFinished_outcome (fun _ => joDoe) ⟨true, [], []⟩ ⟨0, "", []⟩ rfl).1 (by decide),
    (onReplyFinished_outcome (fun _ => QJsonDocument.null) ⟨true, [], []⟩ ⟨0, "", []⟩ rfl).2.2
      (Or.inl rfl)⟩

/-- C10: while the busy flag is set, `fetchRandomContact` changes nothing: no request
is issued, no signal (so no `fetchStarted`) is emitted, and the flag stays set. -/
theorem fetchRandomContact_busy (nm : NetworkManager) (hbusy : nm.m_busy = true) :
    nm.fetchRandomContact = nm ∧
      nm.fetchRandomContact.requests = nm.requests ∧
      nm.fetchRandomContact.emitted = nm.emitted ∧
      nm.fetchRandomContact.m_busy = true := by
  have h : nm.fetchRandomContact = nm := by simp [NetworkManager.fetchRandomContact, hbusy]
  rw [h]
  exact ⟨rfl, rfl, rfl, hbusy⟩

/-- The witness of C10: a busy fetcher with one request under way; an idle fetcher, by
contrast, issues its request. -/
theorem fetchRandomContact_busy_witness :
    (NetworkManager.fetchRandomContact
        ⟨true, ["https://randomuser.me/api/?results=1"], [FetchSignal.fetchStarted]⟩ =
      ⟨true, ["https://randomuser.me/api/?results=1"], [FetchSignal.fetchStarted]⟩) ∧
    NetworkManager.fetchRandomContact ⟨false, [], []⟩ =
      ⟨true, ["https://randomuser.me/api/?results=1"], [FetchSignal.fetchStarted]⟩ :=
  ⟨(fetchRandomContact_busy
      ⟨true, ["https://randomuser.me/api/?results=1"], [FetchSignal.fetchStarted]⟩ rfl).1,
    by decide⟩

theorem onReplyFinished_busy (fromJson : List UInt8 → QJsonDocument)
    (nm : NetworkManager) (reply : QNetworkReply) :
    (NetworkManager.onReplyFinished fromJson nm reply).m_busy = false := by
  unfold NetworkManager.onReplyFinished
  by_cases herr : reply.error = 0
  · by_cases hv : (NetworkManager.parseJsonResponse fromJson reply.body).isValid = true <;>
      simp [herr, hv, NetworkManager.emit]
  · simp [herr, NetworkManager.emit]

theorem onReplyFinished_failed (fromJson : List UInt8 → QJsonDocument)
    (nm : NetworkManager) (reply : QNetworkReply) (herr : reply.error ≠ 0) :
    (NetworkManager.onReplyFinished fromJson nm reply).emitted =
      nm.emitted ++ [FetchSignal.fetchFinished,
        FetchSignal.errorOccurred ("Network error: " ++ reply.errorString)] := by
  simp [NetworkManager.onReplyFinished, NetworkManager.emit, herr]

/-! ## The fetcher: one call from start to finish -/

/-- C11: a fetch accepted while not busy sets the flag, issues one request and emits
`fetchStarted`; whatever the reply is, `onReplyFinished` then clears the flag and
emits `fetchFinished` followed by one outcome signal, an error or `contactFetched`.
So the signals of the call are `fetchStarted, fetchFinished, outcome`: each of the
first two occurs once, and `fetchFinished` comes before the outcome. -/
theorem fetch_started_finished_once (fromJson : List UInt8 → QJsonDocument)
    (nm : NetworkManager) (reply : QNetworkReply) (hidle : nm.m_busy = false) :
    nm.fetchRandomContact.m_busy = true ∧
    nm.fetchRandomContact.requests = nm.requests ++ [randomUserUrl] ∧
    nm.fetchRandomContact.emitted = nm.emitted ++ [FetchSignal.fetchStarted] ∧
    (NetworkManager.onReplyFinished fromJson nm.fetchRandomContact reply).m_busy = false ∧
    (∃ outcome : FetchSignal,
      (NetworkManager.onReplyFinished fromJson nm.fetchRandomContact reply).emitted =
        nm.emitted ++ [FetchSignal.fetchStarted, FetchSignal.fetchFinished, outcome] ∧
      ((∃ e, outcome = FetchSignal.errorOccurred e) ∨
        (∃ c, outcome = FetchSignal.contactFetched c)) ∧
      (reply.error ≠ 0 →
        outcome = FetchSignal.errorOccurred ("Network error: " ++ reply.errorString)) ∧
      (reply.error = 0 →
        (NetworkManager.parseJsonResponse fromJson reply.body).isValid = false →
        outcome = FetchSignal.errorOccurred parseErrorText) ∧
      (reply.error = 0 →
        (NetworkManager.parseJsonResponse fromJson reply.body).isValid = true →
        outcome = FetchSignal.contactFetched
          (NetworkManager.parseJsonResponse fromJson reply.body))) ∧
    ((NetworkManager.onReplyFinished fromJson nm.fetchRandomContact reply).emitted.drop
        nm.emitted.length).count FetchSignal.fetchStarted = 1 ∧
    ((NetworkManager.onReplyFinished fromJson nm.fetchRandomContact reply).emitted.drop
        nm.emitted.length).count FetchSignal.fetchFinished = 1 := by
  have hfetch : nm.fetchRandomContact =
      ⟨true, nm.requests ++ [randomUserUrl], nm.emitted ++ [FetchSignal.fetchStarted]⟩ := by
    simp [NetworkManager.fetchRandomContact, NetworkManager.emit, hidle, randomUserUrl]
  rw [hfetch]
  refine ⟨rfl, rfl, rfl, onReplyFinished_busy fromJson _ reply, ?_⟩
  have hcount : ∀ outcome : FetchSignal,
      ((∃ e, outcome = FetchSignal.errorOccurred e) ∨
        (∃ c, outcome = FetchSignal.contactFetched c)) →
      ((nm.emitted ++ [FetchSignal.fetchStarted, FetchSignal.fetchFinished, outcome]).drop
          nm.emitted.length).count FetchSignal.fetchStarted = 1 ∧
      ((nm.emitted ++ [FetchSignal.fetchStarted, FetchSignal.fetchFinished, outcome]).drop
          nm.emitted.length).count FetchSignal.fetchFinished = 1 := by
    rintro outcome (⟨e, rfl⟩ | ⟨c, rfl⟩) <;> simp [List.count_cons]
  by_cases herr : reply.error = 0
  · have hem := onReplyFinished_emitted fromJson
      ⟨true, nm.requests ++ [randomUserUrl], nm.emitted ++ [FetchSignal.fetchStarted]⟩
      reply herr
    simp only [List.append_assoc, List.singleton_append] at hem
    by_cases hv : (NetworkManager.parseJsonResponse fromJson reply.body).isValid = true
    · simp only [hv, if_true] at hem
      rw [hem]
      refine ⟨⟨_, rfl, Or.inr ⟨_, rfl⟩, ?_, ?_, ?_⟩, hcount _ (Or.inr ⟨_, rfl⟩)⟩
      · exact fun h => absurd herr h
      · intro _ h; rw [hv] at h; cases h
      · exact fun _ _ => rfl
    · simp only [hv, if_false] at hem
      rw [hem]
      refine ⟨⟨_, rfl, Or.inl ⟨_, rfl⟩, ?_, ?_, ?_⟩, hcount _ (Or.inl ⟨_, rfl⟩)⟩
      · exact fun h => absurd herr h
      · exact fun _ _ => rfl
      · exact fun _ h => absurd h hv
  · have hem := onReplyFinished_failed fromJson
      ⟨true, nm.requests ++ [randomUserUrl], nm.emitted ++ [FetchSignal.fetchStarted]⟩
      reply herr
    simp only [List.append_assoc, List.singleton_append] at hem
    rw [hem]
    refine ⟨⟨_, rfl, Or.inl ⟨_, rfl⟩, ?_, ?_, ?_⟩, hcount _ (Or.inl ⟨_, rfl⟩)⟩
    · exact fun _ => rfl
    · exact fun h => absurd h herr
    · exact fun h => absurd h herr

/-- The witness of C11: an idle fetcher whose reply parses to `joDoe`. -/
theorem fetch_started_finished_once_witness :
    (NetworkManager.onReplyFinished (fun _ => joDoe)
        (NetworkManager.fetchRandomContact ⟨false, [], []⟩) ⟨0, "", []⟩).m_busy = false ∧
    ((NetworkManager.onReplyFinished (fun _ => joDoe)
        (NetworkManager.fetchRandomContact ⟨false, [], []⟩) ⟨0, "", []⟩).emitted.drop
        ([] : List FetchSignal).length).count FetchSignal.fetchStarted = 1 ∧
    ((NetworkManager.onReplyFinished (fun _ => joDoe)
        (NetworkManager.fetchRandomContact ⟨false, [], []⟩) ⟨0, "", []⟩).emitted.drop
        ([] : List FetchSignal).length).count FetchSignal.fetchFinished = 1 :=
  ⟨(fetch_started_finished_once (fun _ => joDoe) ⟨false, [], []⟩ ⟨0, "", []⟩ rfl).2.2.2.1,
    (fetch_started_finished_once (fun _ => joDoe) ⟨false, [], []⟩ ⟨0, "", []⟩ rfl).2.2.2.2.2⟩

/-! ## The store: guards -/

theorem setLastError_spec (dm : DatabaseManager) (e : String) :
    (dm.setLastError e).m_database = dm.m_database ∧
      (dm.setLastError e).lastError = e ∧
      (dm.setLastError e).emitted = dm.emitted ++ [Signal.errorOccurred e] :=
  ⟨rfl, rfl, rfl⟩

theorem Database.map_update_absent (rows : List Row) (id : Int)
    (firstName lastName email phone city country : String)
    (hno : ∀ r ∈ rows, r.id ≠ id) :
    (rows.map fun r =>
      if r.id = id then (⟨r.id, firstName, lastName, email, phone, city, country⟩ : Row)
      else r) = rows := by
  induction rows with
  | nil => rfl
  | cons a rows ih =>
    have ha : a.id ≠ id := hno a (List.mem_cons_self _ _)
    have hrest : ∀ r ∈ rows, r.id ≠ id := fun r hr => hno r (List.mem_cons_of_mem _ hr)
    simp only [List.map_cons, if_neg ha, ih hrest]

/-- C12, amended to stores whose table exists: on a connected store with the table
created, updating with a valid contact whose positive id no stored row has returns
true, emits `contactUpdated` for that id and leaves the database as it was: no row is
inserted, none is changed. -/
theorem updateContact_absent_id (dm : DatabaseManager) (c : Contact) (rows : List Row)
    (hconn : dm.isConnected = true) (hrows : dm.m_database.contacts = some rows)
    (hvalid : c.isValid = true) (hid : 0 < c.id) (hno : ∀ r ∈ rows, r.id ≠ c.id) :
    (dm.updateContact c).1 = true ∧
      (dm.updateContact c).2.emitted = dm.emitted ++ [Signal.contactUpdated c.id] ∧
      (dm.updateContact c).2.m_database = dm.m_database ∧
      (dm.updateContact c).2.m_database.contacts = some rows := by
  have hopen : dm.m_database.isOpen = true := hconn
  have hpos : ¬ c.id ≤ 0 := by omega
  have hmap := Database.map_update_absent rows c.id c.firstName c.lastName c.email c.phone
    c.city c.country hno
  have hdb : (⟨true, dm.m_database.openError, some rows, dm.m_database.seq⟩ : Database) =
      dm.m_database := by
    cases hd : dm.m_database with
    | mk isOpen openError contacts seq =>
      simp only [hd] at hrows hopen
      simp [hrows, hopen]
  simp [DatabaseManager.updateContact, DatabaseManager.isConnected, DatabaseManager.emit,
    Database.execUpdate, hopen, hvalid, hrows, hpos, hmap, hdb]

/-- The witness of C12: no row of `annBob` has id 5. -/
theorem updateContact_absent_id_witness :
    (annBob.updateContact ⟨5, "Jo", "Doe", "", "", "", ""⟩).1 = true ∧
      (annBob.updateContact ⟨5, "Jo", "Doe", "", "", "", ""⟩).2.emitted =
        annBob.emitted ++ [Signal.contactUpdated 5] ∧
      (annBob.updateContact ⟨5, "Jo", "Doe", "", "", "", ""⟩).2.m_database =
        annBob.m_database ∧
      (annBob.updateContact ⟨5, "Jo", "Doe", "", "", "", ""⟩).2.m_database.contacts =
        some [⟨1, "Ann", "Lee", "a@x.com", "", "Paris", "France"⟩,
          ⟨2, "Bob", "Ng", "b@x.com", "", "Lyon", "France"⟩] :=
  updateContact_absent_id annBob ⟨5, "Jo", "Doe", "", "", "", ""⟩
    [⟨1, "Ann", "Lee", "a@x.com", "", "Paris", "France"⟩,
     ⟨2, "Bob", "Ng", "b@x.com", "", "Lyon", "France"⟩]
    (by decide) rfl (by decide) (by decide) (by decide)

/-- C12 as stated fails on a connected store whose table was never created: the store
`noTable` is connected, the contact is valid with id 1, no row is stored, and yet
`updateContact` returns false with a storage error and emits no `contactUpdated`. -/
theorem updateContact_absent_id_no_table :
    noTable.isConnected = true ∧
      (⟨1, "Jo", "Doe", "", "", "", ""⟩ : Contact).isValid = true ∧
      noTable.m_database.contacts = none ∧
      ¬ (noTable.updateContact ⟨1, "Jo", "Doe", "", "", "", ""⟩).1 = true ∧
      (noTable.updateContact ⟨1, "Jo", "Doe", "", "", "", ""⟩).2.lastError =
        "Failed to update contact: " ++ noSuchTable ∧
      (noTable.updateContact ⟨1, "Jo", "Doe", "", "", "", ""⟩).2.emitted =
        noTable.emitted ++
          [Signal.errorOccurred ("Failed to update contact: " ++ noSuchTable)] ∧
      Signal.contactUpdated 1 ∉
        (noTable.updateContact ⟨1, "Jo", "Doe", "", "", "", ""⟩).2.emitted := by
  decide

/-- C13: on a connected store, `updateContact` with an id that is not positive or with
an empty first or last name fails with "Invalid contact data", and `deleteContact`
with an id that is not positive fails with "Invalid contact ID". Each returns false
from the object `setLastError` leaves: the database is as before and the error is the
only signal emitted, so no `contactUpdated` and no `contactDeleted`. -/
theorem update_delete_validation (dm : DatabaseManager) (hconn : dm.isConnected = true) :
    (∀ c : Contact, (c.id ≤ 0 ∨ c.firstName = "" ∨ c.lastName = "") →
      dm.updateContact c = (false, dm.setLastError "Invalid contact data")) ∧
    (∀ id : Int, id ≤ 0 →
      dm.deleteContact id = (false, dm.setLastError "Invalid contact ID")) ∧
    (∀ e : String,
      (dm.setLastError e).m_database = dm.m_database ∧
      (dm.setLastError e).lastError = e ∧
      (dm.setLastError e).emitted = dm.emitted ++ [Signal.errorOccurred e]) := by
  have hopen : dm.m_database.isOpen = true := hconn
  refine ⟨?_, ?_, setLastError_spec dm⟩
  · intro c hc
    have hbad : (decide (c.id ≤ 0) || !c.isValid) = true := by
      rcases hc with h | h | h
      · simp [h]
      · have : c.isValid = false := by
          rw [← Bool.not_eq_true, isValid_iff]; simp [h]
        simp [this]
      · have : c.isValid = false := by
          rw [← Bool.not_eq_true, isValid_iff]; simp [h]
        simp [this]
    simp [DatabaseManager.updateContact, DatabaseManager.isConnected, hopen, hbad]
  · intro id hid
    simp [DatabaseManager.deleteContact, DatabaseManager.isConnected, hopen, hid]

/-- The witness of C13: on `annBob`, an update with id 0, an update without a first
name, and a delete of id -3. -/
theorem update_delete_validation_witness :
    annBob.updateContact ⟨0, "Ann", "Lee", "", "", "", ""⟩ =
        (false, annBob.setLastError "Invalid contact data") ∧
      annBob.updateContact ⟨1, "", "Lee", "", "", "", ""⟩ =
        (false, annBob.setLastError "Invalid contact data") ∧
      annBob.deleteContact (-3) = (false, annBob.setLastError "Invalid contact ID") ∧
      (annBob.setLastError "Invalid contact ID").m_database = annBob.m_database :=
  ⟨(update_delete_validation annBob (by decide)).1 _ (Or.inl (by decide)),
    (update_delete_validation annBob (by decide)).1 _ (Or.inr (Or.inl rfl)),
    (update_delete_validation annBob (by decide)).2.1 _ (by decide),
    ((update_delete_validation annBob (by decide)).2.2 _).1⟩

/-- C16: on a store that is not connected the connection check comes first. For every
contact, valid or not and with any id, `addContact` and `updateContact` fail with
"Database not connected"; so does `deleteContact` for every id and `createTable`;
`getAllContacts` and `searchContacts` return the empty sequence for every term. -/
theorem not_connected_first (dm : DatabaseManager) (hoff : dm.isConnected = false) :
    (∀ c : Contact, dm.addContact c = (false, dm.setLastError "Database not connected")) ∧
    (∀ c : Contact, dm.updateContact c = (false, dm.setLastError "Database not connected")) ∧
    (∀ id : Int, dm.deleteContact id = (false, dm.setLastError "Database not connected")) ∧
    dm.createTable = (false, dm.setLastError "Database not connected") ∧
    dm.getAllContacts = ([], dm.setLastError "Database not connected") ∧
    (∀ term : String,
      dm.searchContacts term = ([], dm.setLastError "Database not connected")) ∧
    (dm.setLastError "Database not connected").lastError = "Database not connected" := by
  refine ⟨?_, ?_, ?_, ?_, ?_, ?_, rfl⟩
  · intro c; simp [DatabaseManager.addContact, hoff]
  · intro c; simp [DatabaseManager.updateContact, hoff]
  · intro id; simp [DatabaseManager.deleteContact, hoff]
  · simp [DatabaseManager.createTable, hoff]
  · simp [DatabaseManager.getAllContacts, hoff]
  · intro term; simp [DatabaseManager.searchContacts, hoff]

/-- The witness of C16: the store `offline`, with an invalid contact, a contact with
id 0 and a delete of id 0. -/
theorem not_connected_first_witness :
    offline.addContact ⟨-1, "", "", "", "", "", ""⟩ =
        (false, offline.setLastError "Database not connected") ∧
      offline.updateContact ⟨0, "Ann", "", "", "", "", ""⟩ =
        (false, offline.setLastError "Database not connected") ∧
      offline.deleteContact 0 = (false, offline.setLastError "Database not connected") ∧
      offline.getAllContacts.1 = [] ∧ (offline.searchContacts "ann").1 = [] :=
  ⟨(not_connected_first offline (by decide)).1 _,
    (not_connected_first offline (by decide)).2.1 _,
    (not_connected_first offline (by decide)).2.2.1 _,
    congrArg Prod.fst (not_connected_first offline (by decide)).2.2.2.2.1,
    congrArg Prod.fst ((not_connected_first offline (by decide)).2.2.2.2.2.1 "ann")⟩

/-! ## The store: lookup by id -/

theorem Database.filter_id_eq_find (rows : List Row) (id : Int) :
    (match rows.filter (fun r => decide (r.id = id)) with
      | r :: _ => some r
      | [] => none) = rows.find? (fun r => decide (r.id = id)) := by
  induction rows with
  | nil => rfl
  | cons a rows ih =>
    by_cases ha : a.id = id
    · simp [List.filter_cons, List.find?_cons, ha]
    · simpa [List.filter_cons, List.find?_cons, ha] using ih

theorem getContact_of_rows (dm : DatabaseManager) (id : Int) (rows : List Row)
    (hconn : dm.isConnected = true) (hrows : dm.m_database.contacts = some rows) :
    dm.getContact id =
      match rows.find? (fun r => decide (r.id = id)) with
      | some r => (r.toContact, dm)
      | none => (Contact.new, dm.setLastError "Contact not found") := by
  have hopen : dm.m_database.isOpen = true := hconn
  rw [← Database.filter_id_eq_find]
  simp only [DatabaseManager.getContact, DatabaseManager.isConnected, hopen,
    Database.execSelectById, hrows, Bool.not_true, Bool.false_eq_true, if_false]
  cases rows.filter (fun r => decide (r.id = id)) <;> rfl

theorem getContact_no_table (dm : DatabaseManager) (id : Int)
    (hconn : dm.isConnected = true) (hrows : dm.m_database.contacts = none) :
    dm.getContact id = (Contact.new, dm.setLastError "Contact not found") := by
  have hopen : dm.m_database.isOpen = true := hconn
  simp [DatabaseManager.getContact, DatabaseManager.isConnected, hopen,
    Database.execSelectById, hrows]

theorem getContact_offline (dm : DatabaseManager) (id : Int)
    (hoff : dm.isConnected = false) :
    dm.getContact id = (Contact.new, dm.setLastError "Database not connected") := by
  simp [DatabaseManager.getContact, hoff]

theorem Database.find_unique (rows : List Row) (r : Row)
    (hnodup : (rows.map Row.id).Nodup) (hr : r ∈ rows) :
    rows.find? (fun x => decide (x.id = r.id)) = some r := by
  cases hfind : rows.find? (fun x => decide (x.id = r.id)) with
  | none =>
    have := List.find?_eq_none.1 hfind r hr
    simp at this
  | some x =>
    have hx : x ∈ rows := List.mem_of_find?_eq_some hfind
    have hid : x.id = r.id := by simpa using List.find?_some hfind
    rw [List.inj_on_of_nodup_map hnodup hx hr hid]

theorem Database.find_absent (rows : List Row) (id : Int) (hno : ∀ r ∈ rows, r.id ≠ id) :
    rows.find? (fun x => decide (x.id = id)) = none := by
  rw [List.find?_eq_none]
  intro r hr
  simpa using hno r hr

/-- C15, amended in the case of a store that is not connected: on a store whose table
obeys its schema, `getContact id` returns the one stored row with that id when the
store is connected and the row exists, leaving the object as it was. When the store is
connected and no row has that id (every id that is not positive among them, and every
id while the table does not exist) it returns the default contact, which is not valid,
and reports "Contact not found". When the store is not connected it returns the
default contact and reports "Database not connected". -/
theorem getContact_cases (dm : DatabaseManager) (id : Int) (hdb : dm.m_database.Valid) :
    (dm.isConnected = true → ∀ rows r, dm.m_database.contacts = some rows → r ∈ rows →
      r.id = id →
      dm.getContact id = (r.toContact, dm) ∧ ∀ x ∈ rows, x.id = id → x = r) ∧
    (dm.isConnected = true →
      (∀ rows, dm.m_database.contacts = some rows → ∀ r ∈ rows, r.id ≠ id) →
      dm.getContact id = (Contact.new, dm.setLastError "Contact not found")) ∧
    (dm.isConnected = true → id ≤ 0 →
      dm.getContact id = (Contact.new, dm.setLastError "Contact not found")) ∧
    (dm.isConnected = false →
      dm.getContact id = (Contact.new, dm.setLastError "Database not connected")) ∧
    Contact.new.isValid = false ∧ Contact.new.id = -1 := by
  have habsent : dm.isConnected = true →
      (∀ rows, dm.m_database.contacts = some rows → ∀ r ∈ rows, r.id ≠ id) →
      dm.getContact id = (Contact.new, dm.setLastError "Contact not found") := by
    intro hconn hno
    cases hrows : dm.m_database.contacts with
    | none => exact getContact_no_table dm id hconn hrows
    | some rows =>
      rw [getContact_of_rows dm id rows hconn hrows, Database.find_absent rows id (hno rows hrows)]
  refine ⟨?_, habsent, ?_, getContact_offline dm id, by decide, rfl⟩
  · intro hconn rows r hrows hr hid
    obtain ⟨_, hnodup⟩ := hdb.2 rows hrows
    subst hid
    refine ⟨?_, fun x hx hxid => List.inj_on_of_nodup_map hnodup hx hr hxid⟩
    rw [getContact_of_rows dm r.id rows hconn hrows, Database.find_unique rows r hnodup hr]
  · intro hconn hid
    refine habsent hconn ?_
    intro rows hrows r hr heq
    have := ((hdb.2 rows hrows).1 r hr).1
    omega

/-- The witness of C15: on `annBob`, id 2 is Bob's row and id 0 is not found. -/
theorem getContact_cases_witness :
    annBob.getContact 2 = (⟨2, "Bob", "Ng", "b@x.com", "", "Lyon", "France"⟩, annBob) ∧
      annBob.getContact 0 = (Contact.new, annBob.setLastError "Contact not found") :=
  ⟨((getContact_cases annBob 2 annBob_valid).1 (by decide) _
      ⟨2, "Bob", "Ng", "b@x.com", "", "Lyon", "France"⟩ rfl (by decide) rfl).1,
    (getContact_cases annBob 0 annBob_valid).2.2.1 (by decide) (by decide)⟩

/-- C15 as stated fails on a store that is not connected: `offline.getContact 1`
returns the default contact, but the error it reports and records is
"Database not connected", not "Contact not found". -/
theorem getContact_offline_not_found :
    offline.isConnected = false ∧
      (offline.getContact 1).1 = Contact.new ∧
      (offline.getContact 1).2.lastError = "Database not connected" ∧
      (offline.getContact 1).2.lastError ≠ "Contact not found" ∧
      (offline.getContact 1).2.emitted =
        offline.emitted ++ [Signal.errorOccurred "Database not connected"] ∧
      Signal.errorOccurred "Contact not found" ∉ (offline.getContact 1).2.emitted := by
  decide

/-! ## The store: what a mutation leaves alone -/

theorem getContact_result (dm : DatabaseManager) (id : Int) (rows : List Row)
    (hconn : dm.isConnected = true) (hrows : dm.m_database.contacts = some rows) :
    (dm.getContact id).1 =
        ((rows.find? (fun r => decide (r.id = id))).map Row.toContact).getD Contact.new ∧
      (dm.getContact id).2.lastError =
        if (rows.find? (fun r => decide (r.id = id))).isSome then dm.lastError
        else "Contact not found" := by
  rw [getContact_of_rows dm id rows hconn hrows]
  cases rows.find? (fun r => decide (r.id = id)) <;> exact ⟨rfl, rfl⟩

theorem Database.find_filter_ne (rows : List Row) (id j : Int) (hj : j ≠ id) :
    (rows.filter (fun r => decide (r.id ≠ id))).find? (fun r => decide (r.id = j)) =
      rows.find? (fun r => decide (r.id = j)) := by
  induction rows with
  | nil => rfl
  | cons a rows ih =>
    by_cases ha : a.id = id
    · have h1 : decide (a.id ≠ id) = false := by simp [ha]
      have h2 : decide (a.id = j) = false := by
        simp only [decide_eq_false_iff_not]
        exact fun h => hj (h ▸ ha)
      simp only [List.filter_cons, List.find?_cons, h1, h2]
      exact ih
    · have h1 : decide (a.id ≠ id) = true := by simp [ha]
      cases h2 : decide (a.id = j) with
      | true => simp only [List.filter_cons, List.find?_cons, h1, h2, if_true]
      | false =>
        simp only [List.filter_cons, List.find?_cons, h1, h2, if_true]
        exact ih

theorem Database.find_map_update_ne (rows : List Row) (id j : Int) (hj : j ≠ id)
    (firstName lastName email phone city country : String) :
    (rows.map fun r =>
        if r.id = id then (⟨r.id, firstName, lastName, email, phone, city, country⟩ : Row)
        else r).find? (fun r => decide (r.id = j)) =
      rows.find? (fun r => decide (r.id = j)) := by
  induction rows with
  | nil => rfl
  | cons a rows ih =>
    by_cases ha : a.id = id
    · have h2 : decide (a.id = j) = false := by
        simp only [decide_eq_false_iff_not]
        exact fun h => hj (h ▸ ha)
      simp only [List.map_cons, List.find?_cons, if_pos ha, h2]
      exact ih
    · cases h2 : decide (a.id = j) with
      | true => simp only [List.map_cons, List.find?_cons, if_neg ha, h2]
      | false =>
        simp only [List.map_cons, List.find?_cons, if_neg ha, h2]
        exact ih

theorem Database.find_append_stored (rows : List Row) (x : Row) (j : Int)
    (hj : ∃ r ∈ rows, r.id = j) :
    (rows ++ [x]).find? (fun r => decide (r.id = j)) =
      rows.find? (fun r => decide (r.id = j)) := by
  induction rows with
  | nil => simp at hj
  | cons a rows ih =>
    by_cases haj : a.id = j
    · simp [List.find?_cons, haj]
    · have hrest : ∃ r ∈ rows, r.id = j := by
        obtain ⟨r, hr, hid⟩ := hj
        rcases List.mem_cons.1 hr with rfl | hr
        · exact absurd hid haj
        · exact ⟨r, hr, hid⟩
      simpa [List.find?_cons, haj] using ih hrest

theorem deleteContact_ok (dm : DatabaseManager) (id : Int)
    (hdel : (dm.deleteContact id).1 = true) :
    ∃ rows, dm.isConnected = true ∧ dm.m_database.contacts = some rows ∧
      (dm.deleteContact id).2 =
        ⟨{ dm.m_database with contacts := some (rows.filter fun r => r.id ≠ id) },
          dm.m_lastError, dm.emitted ++ [Signal.contactDeleted id]⟩ := by
  unfold DatabaseManager.deleteContact at hdel ⊢
  cases hconn : dm.isConnected with
  | false => simp [hconn] at hdel
  | true =>
    by_cases hid : id ≤ 0
    · simp [hconn, hid] at hdel
    · cases hrows : dm.m_database.contacts with
      | none => simp [hconn, hid, Database.execDelete, hrows] at hdel
      | some rows =>
        exact ⟨rows, rfl, rfl, by
          simp [hid, Database.execDelete, hrows, DatabaseManager.emit]⟩

theorem updateContact_ok (dm : DatabaseManager) (c : Contact)
    (hupd : (dm.updateContact c).1 = true) :
    ∃ rows, dm.isConnected = true ∧ dm.m_database.contacts = some rows ∧
      (dm.updateContact c).2 =
        ⟨{ dm.m_database with contacts := some (rows.map fun r =>
              if r.id = c.id
              then ⟨r.id, c.firstName, c.lastName, c.email, c.phone, c.city, c.country⟩
              else r) },
          dm.m_lastError, dm.emitted ++ [Signal.contactUpdated c.id]⟩ := by
  unfold DatabaseManager.updateContact at hupd ⊢
  cases hconn : dm.isConnected with
  | false => simp [hconn] at hupd
  | true =>
    by_cases hbad : (decide (c.id ≤ 0) || !c.isValid) = true
    · simp [hconn, hbad] at hupd
    · cases hrows : dm.m_database.contacts with
      | none => simp [hconn, hbad, Database.execUpdate, hrows] at hupd
      | some rows =>
        exact ⟨rows, rfl, rfl, by
          simp [hbad, Database.execUpdate, hrows, DatabaseManager.emit]⟩

theorem addContact_ok (dm : DatabaseManager) (c : Contact)
    (hadd : (dm.addContact c).1 = true) :
    ∃ rows, dm.isConnected = true ∧ dm.m_database.contacts = some rows ∧
      (dm.addContact c).2 =
        ⟨{ dm.m_database with
            contacts := some (rows ++ [⟨Database.maxRowid rows dm.m_database.seq + 1,
              c.firstName, c.lastName, c.email, c.phone, c.city, c.country⟩]),
            seq := Database.maxRowid rows dm.m_database.seq + 1 },
          dm.m_lastError,
          dm.emitted ++
            [Signal.contactAdded (toInt (Database.maxRowid rows dm.m_database.seq + 1))]⟩ := by
  unfold DatabaseManager.addContact at hadd ⊢
  cases hconn : dm.isConnected with
  | false => simp [hconn] at hadd
  | true =>
    cases hvalid : c.isValid with
    | false => simp [hconn, hvalid] at hadd
    | true =>
      cases hrows : dm.m_database.contacts with
      | none => simp [hconn, hvalid, Database.execInsert, hrows] at hadd
      | some rows =>
        exact ⟨rows, rfl, rfl, by
          simp [Database.execInsert, hrows, DatabaseManager.emit]⟩

/-- C17: on a connected store, a successful `deleteContact id` and a successful
`updateContact c` leave `getContact j` as it was for every `j` other than the id
addressed: the same contact is returned and the same error, if any, is recorded. A
successful `addContact c` leaves `getContact j` as it was for every `j` stored before,
and the table afterwards is the old table followed by exactly one new row, which has
an id no old row had and the six fields of `c`. -/
theorem mutations_touch_one_row (dm : DatabaseManager) (hconn : dm.isConnected = true) :
    (∀ id j : Int, j ≠ id → (dm.deleteContact id).1 = true →
      ((dm.deleteContact id).2.getContact j).1 = (dm.getContact j).1 ∧
      ((dm.deleteContact id).2.getContact j).2.lastError = (dm.getContact j).2.lastError) ∧
    (∀ (c : Contact) (j : Int), j ≠ c.id → (dm.updateContact c).1 = true →
      ((dm.updateContact c).2.getContact j).1 = (dm.getContact j).1 ∧
      ((dm.updateContact c).2.getContact j).2.lastError = (dm.getContact j).2.lastError) ∧
    (∀ (c : Contact) (rows : List Row), dm.m_database.contacts = some rows →
      (dm.addContact c).1 = true →
      (∀ j : Int, (∃ r ∈ rows, r.id = j) →
        ((dm.addContact c).2.getContact j).1 = (dm.getContact j).1 ∧
        ((dm.addContact c).2.getContact j).2.lastError = (dm.getContact j).2.lastError) ∧
      ∃ newId : Int, (∀ r ∈ rows, r.id ≠ newId) ∧
        (dm.addContact c).2.m_database.contacts =
          some (rows ++ [⟨newId, c.firstName, c.lastName, c.email, c.phone, c.city,
            c.country⟩])) := by
  refine ⟨?_, ?_, ?_⟩
  · intro id j hj hdel
    obtain ⟨rows, _, hrows, hnew⟩ := deleteContact_ok dm id hdel
    obtain ⟨h1, h2⟩ := getContact_result dm j rows hconn hrows
    obtain ⟨h3, h4⟩ := getContact_result (dm.deleteContact id).2 j
      (rows.filter fun r => r.id ≠ id) (by rw [hnew]; exact hconn) (by rw [hnew])
    rw [h1, h2, h3, h4, Database.find_filter_ne rows id j hj, hnew]
    exact ⟨rfl, rfl⟩
  · intro c j hj hupd
    obtain ⟨rows, _, hrows, hnew⟩ := updateContact_ok dm c hupd
    obtain ⟨h1, h2⟩ := getContact_result dm j rows hconn hrows
    obtain ⟨h3, h4⟩ := getContact_result (dm.updateContact c).2 j _
      (by rw [hnew]; exact hconn) (by rw [hnew])
    rw [h1, h2, h3, h4, Database.find_map_update_ne rows c.id j hj, hnew]
    exact ⟨rfl, rfl⟩
  · intro c rows hrows hadd
    obtain ⟨rows', _, hrows', hnew⟩ := addContact_ok dm c hadd
    have hsame : rows' = rows := by
      rw [hrows] at hrows'
      exact (Option.some.inj hrows').symm
    subst hsame
    refine ⟨?_, Database.maxRowid rows' dm.m_database.seq + 1, ?_, by rw [hnew]⟩
    · intro j hstored
      obtain ⟨h1, h2⟩ := getContact_result dm j rows' hconn hrows
      obtain ⟨h3, h4⟩ := getContact_result (dm.addContact c).2 j _
        (by rw [hnew]; exact hconn) (by rw [hnew])
      rw [h1, h2, h3, h4, Database.find_append_stored rows' _ j hstored, hnew]
      exact ⟨rfl, rfl⟩
    · intro r hr
      have := (Database.le_maxRowid rows' dm.m_database.seq).2 r hr
      omega

/-- The witness of C17: on `annBob`, Bob's row is as before after Ann's row was
deleted, after it was updated, and after a third contact was added. -/
theorem mutations_touch_one_row_witness :
    ((annBob.deleteContact 1).2.getContact 2).1 = (annBob.getContact 2).1 ∧
      ((annBob.updateContact ⟨1, "Anna", "Lee", "", "", "", ""⟩).2.getContact 2).1 =
        (annBob.getContact 2).1 ∧
      ((annBob.addContact ⟨-1, "Jo", "Doe", "", "", "", ""⟩).2.getContact 2).1 =
        (annBob.getContact 2).1 ∧
      (annBob.getContact 2).1 = ⟨2, "Bob", "Ng", "b@x.com", "", "Lyon", "France"⟩ :=
  ⟨((mutations_touch_one_row annBob (by decide)).1 1 2 (by decide) (by decide)).1,
    ((mutations_touch_one_row annBob (by decide)).2.1 ⟨1, "Anna", "Lee", "", "", "", ""⟩ 2
      (by decide) (by decide)).1,
    (((mutations_touch_one_row annBob (by decide)).2.2 ⟨-1, "Jo", "Doe", "", "", "", ""⟩ _ rfl
      (by decide)).1 2 ⟨⟨2, "Bob", "Ng", "b@x.com", "", "Lyon", "France"⟩, by decide, rfl⟩).1,
    by decide⟩

/-! ## The store: the error channel -/

theorem errorChannel_of_failure (before after : DatabaseManager) (failed : Prop) (e : String)
    (hfailed : failed)
    (hem : after.emitted = before.emitted ++ [Signal.errorOccurred e])
    (herr : after.lastError = e) : ErrorChannel before after failed :=
  ⟨fun _ => ⟨e, hem, herr⟩, fun h => absurd hfailed h⟩

theorem errorChannel_of_success (before after : DatabaseManager) (failed : Prop)
    (new : List Signal) (hok : ¬ failed)
    (hem : after.emitted = before.emitted ++ new)
    (hnew : ∀ e, Signal.errorOccurred e ∉ new) : ErrorChannel before after failed :=
  ⟨fun h => absurd h hok, fun _ => ⟨new, hem, hnew⟩⟩

theorem errorChannel_connectToDatabase (dm : DatabaseManager)
    (host database user password : String) (port : Int) :
    ErrorChannel dm (dm.connectToDatabase host database user password port).2
      ((dm.connectToDatabase host database user password port).1 = false) := by
  unfold DatabaseManager.connectToDatabase
  cases hopen : dm.m_database.open.1 with
  | false =>
    exact errorChannel_of_failure _ _ _
      ("Failed to connect: " ++ dm.m_database.openError.getD "") (by simp [hopen])
      (by simp [hopen, DatabaseManager.setLastError])
      (by simp [hopen, DatabaseManager.setLastError, DatabaseManager.lastError])
  | true =>
    exact errorChannel_of_success _ _ _ [Signal.databaseConnected] (by simp [hopen])
      (by simp [hopen, DatabaseManager.emit]) (by simp)

theorem errorChannel_createTable (dm : DatabaseManager) :
    ErrorChannel dm dm.createTable.2 (dm.createTable.1 = false) := by
  unfold DatabaseManager.createTable
  cases hconn : dm.isConnected with
  | false => exact errorChannel_of_failure _ _ _ _ (by simp) (by simp; rfl) (by simp; rfl)
  | true =>
    cases hexec : dm.m_database.execCreateTable with
    | error e => exact errorChannel_of_failure _ _ _ _ (by simp) (by simp; rfl) (by simp; rfl)
    | ok db => exact errorChannel_of_success _ _ _ [] (by simp) (by simp) (by simp)

theorem errorChannel_addContact (dm : DatabaseManager) (c : Contact) :
    ErrorChannel dm (dm.addContact c).2 ((dm.addContact c).1 = false) := by
  unfold DatabaseManager.addContact
  cases hconn : dm.isConnected with
  | false => exact errorChannel_of_failure _ _ _ _ (by simp) (by simp; rfl) (by simp; rfl)
  | true =>
    cases hvalid : c.isValid with
    | false => exact errorChannel_of_failure _ _ _ _ (by simp) (by simp; rfl) (by simp; rfl)
    | true =>
      cases hexec : dm.m_database.execInsert c.firstName c.lastName c.email c.phone c.city
          c.country with
      | error e => exact errorChannel_of_failure _ _ _ _ (by simp) (by simp; rfl) (by simp; rfl)
      | ok res =>
        exact errorChannel_of_success _ _ _ [Signal.contactAdded (toInt res.2)] (by simp)
          (by simp [DatabaseManager.emit]) (by simp)

theorem errorChannel_updateContact (dm : DatabaseManager) (c : Contact) :
    ErrorChannel dm (dm.updateContact c).2 ((dm.updateContact c).1 = false) := by
  unfold DatabaseManager.updateContact
  cases hconn : dm.isConnected with
  | false => exact errorChannel_of_failure _ _ _ _ (by simp) (by simp; rfl) (by simp; rfl)
  | true =>
    cases hbad : (decide (c.id ≤ 0) || !c.isValid) with
    | true => exact errorChannel_of_failure _ _ _ _ (by simp) (by simp; rfl) (by simp; rfl)
    | false =>
      cases hexec : dm.m_database.execUpdate c.id c.firstName c.lastName c.email c.phone
          c.city c.country with
      | error e => exact errorChannel_of_failure _ _ _ _ (by simp) (by simp; rfl) (by simp; rfl)
      | ok db =>
        exact errorChannel_of_success _ _ _ [Signal.contactUpdated c.id] (by simp)
          (by simp [DatabaseManager.emit]) (by simp)

theorem errorChannel_deleteContact (dm : DatabaseManager) (id : Int) :
    ErrorChannel dm (dm.deleteContact id).2 ((dm.deleteContact id).1 = false) := by
  unfold DatabaseManager.deleteContact
  cases hconn : dm.isConnected with
  | false => exact errorChannel_of_failure _ _ _ _ (by simp) (by simp; rfl) (by simp; rfl)
  | true =>
    by_cases hid : id ≤ 0
    · exact errorChannel_of_failure _ _ _ "Invalid contact ID" (by simp [hid])
        (by simp [hid]; rfl) (by simp [hid]; rfl)
    · cases hexec : dm.m_database.execDelete id with
      | error e =>
        exact errorChannel_of_failure _ _ _ ("Failed to delete contact: " ++ e)
          (by simp [hid]) (by simp [hid]; rfl) (by simp [hid]; rfl)
      | ok db =>
        exact errorChannel_of_success _ _ _ [Signal.contactDeleted id] (by simp [hid])
          (by simp [hid, DatabaseManager.emit]) (by simp)

theorem errorChannel_getContact (dm : DatabaseManager) (id : Int) :
    ErrorChannel dm (dm.getContact id).2 (dm.getFails id) ∧
      (dm.getFails id → (dm.getContact id).1 = Contact.new) := by
  cases hconn : dm.isConnected with
  | false =>
    rw [getContact_offline dm id hconn]
    exact ⟨errorChannel_of_failure _ _ _ _ (Or.inl (Or.inl hconn)) rfl rfl, fun _ => rfl⟩
  | true =>
    cases hrows : dm.m_database.contacts with
    | none =>
      rw [getContact_no_table dm id hconn hrows]
      exact ⟨errorChannel_of_failure _ _ _ _ (Or.inl (Or.inr hrows)) rfl rfl, fun _ => rfl⟩
    | some rows =>
      rw [getContact_of_rows dm id rows hconn hrows]
      cases hfind : rows.find? (fun r => decide (r.id = id)) with
      | none =>
        have hno : ∀ r ∈ rows, r.id ≠ id := by
          intro r hr
          simpa using List.find?_eq_none.1 hfind r hr
        have hfails : dm.getFails id := Or.inr (fun rows' h => by
          rw [hrows] at h
          cases h
          exact hno)
        exact ⟨errorChannel_of_failure _ _ _ _ hfails rfl rfl, fun _ => rfl⟩
      | some r =>
        have hr : r ∈ rows := List.mem_of_find?_eq_some hfind
        have hid : r.id = id := by simpa using List.find?_some hfind
        have hok : ¬ dm.getFails id := by
          rintro ((h | h) | h)
          · rw [hconn] at h; cases h
          · rw [hrows] at h; cases h
          · exact h rows hrows r hr hid
        exact ⟨errorChannel_of_success _ _ _ [] hok (by simp) (by simp),
          fun h => absurd h hok⟩

theorem errorChannel_getAllContacts (dm : DatabaseManager) :
    ErrorChannel dm dm.getAllContacts.2 dm.queryFails ∧
      (dm.queryFails → dm.getAllContacts.1 = []) := by
  unfold DatabaseManager.getAllContacts
  cases hconn : dm.isConnected with
  | false =>
    exact ⟨errorChannel_of_failure _ _ _ "Database not connected" (Or.inl hconn)
      (by simp; rfl) (by simp; rfl), fun _ => by simp⟩
  | true =>
    cases hrows : dm.m_database.contacts with
    | none =>
      exact ⟨errorChannel_of_failure _ _ _ ("Failed to fetch contacts: " ++ noSuchTable)
        (Or.inr hrows) (by simp [Database.execSelectAll, hrows]; rfl)
        (by simp [Database.execSelectAll, hrows]; rfl),
        fun _ => by simp [Database.execSelectAll, hrows]⟩
    | some rows =>
      have hok : ¬ dm.queryFails := by
        rintro (h | h)
        · rw [hconn] at h; cases h
        · rw [hrows] at h; cases h
      exact ⟨errorChannel_of_success _ _ _ [] hok
        (by simp [Database.execSelectAll, hrows]) (by simp), fun h => absurd h hok⟩

theorem errorChannel_searchContacts (dm : DatabaseManager) (term : String) :
    ErrorChannel dm (dm.searchContacts term).2 dm.queryFails ∧
      (dm.queryFails → (dm.searchContacts term).1 = []) := by
  by_cases hterm : term.isEmpty = true
  · have hsame : dm.searchContacts term = dm.getAllContacts := by
      unfold DatabaseManager.searchContacts DatabaseManager.getAllContacts
      cases hc : dm.isConnected <;> simp [hterm]
    rw [hsame]
    exact errorChannel_getAllContacts dm
  · unfold DatabaseManager.searchContacts
    cases hconn : dm.isConnected with
    | false =>
      exact ⟨errorChannel_of_failure _ _ _ "Database not connected" (Or.inl hconn)
        (by simp; rfl) (by simp; rfl), fun _ => by simp⟩
    | true =>
      cases hrows : dm.m_database.contacts with
      | none =>
        exact ⟨errorChannel_of_failure _ _ _ ("Failed to search contacts: " ++ noSuchTable)
          (Or.inr hrows) (by simp [hterm, Database.execSelectLike, hrows]; rfl)
          (by simp [hterm, Database.execSelectLike, hrows]; rfl),
          fun _ => by simp [hterm, Database.execSelectLike, hrows]⟩
      | some rows =>
        have hok : ¬ dm.queryFails := by
          rintro (h | h)
          · rw [hconn] at h; cases h
          · rw [hrows] at h; cases h
        exact ⟨errorChannel_of_success _ _ _ [] hok
          (by simp [hterm, Database.execSelectLike, hrows]) (by simp),
          fun h => absurd h hok⟩

/-- C14: every operation of the store keeps the promise of the error channel. A call
of `connectToDatabase`, `createTable`, `addContact`, `updateContact` or
`deleteContact` that returns false, and a call of `getContact`, `getAllContacts` or
`searchContacts` on an input on which it fails, emits exactly one signal, an error,
and `lastError` is then the text of that error; a call that succeeds emits no error.
The failing queries return the default contact and the empty sequence. -/
theorem error_channel_kept (dm : DatabaseManager) :
    (∀ (host database user password : String) (port : Int),
      ErrorChannel dm (dm.connectToDatabase host database user password port).2
        ((dm.connectToDatabase host database user password port).1 = false)) ∧
    ErrorChannel dm dm.createTable.2 (dm.createTable.1 = false) ∧
    (∀ c : Contact, ErrorChannel dm (dm.addContact c).2 ((dm.addContact c).1 = false)) ∧
    (∀ c : Contact,
      ErrorChannel dm (dm.updateContact c).2 ((dm.updateContact c).1 = false)) ∧
    (∀ id : Int, ErrorChannel dm (dm.deleteContact id).2 ((dm.deleteContact id).1 = false)) ∧
    (∀ id : Int, ErrorChannel dm (dm.getContact id).2 (dm.getFails id) ∧
      (dm.getFails id → (dm.getContact id).1 = Contact.new)) ∧
    (ErrorChannel dm dm.getAllContacts.2 dm.queryFails ∧
      (dm.queryFails → dm.getAllContacts.1 = [])) ∧
    (∀ term : String, ErrorChannel dm (dm.searchContacts term).2 dm.queryFails ∧
      (dm.queryFails → (dm.searchContacts term).1 = [])) :=
  ⟨errorChannel_connectToDatabase dm, errorChannel_createTable dm, errorChannel_addContact dm,
    errorChannel_updateContact dm, errorChannel_deleteContact dm, errorChannel_getContact dm,
    errorChannel_getAllContacts dm, errorChannel_searchContacts dm⟩

end ContactManager
